import Mathlib

/-! # TSL2561 light-sensor driver: a shallow embedding

The driver of `firmware/tsl2561.cpp` / `firmware/tsl2561.h` is embedded
function by function.  Machine integers are natural numbers with an explicit
reduction modulo the width of the C type (`uint8_t`: `2^8`, `uint16_t`: `2^16`,
`unsigned long`, `unsigned int` and `uint32_t` on the 32-bit target: `2^32`).
A C reference parameter that a function may leave untouched is an argument
(the value before the call) and a component of the result (the value after it).
-/

/-! ## Constants of `tsl2561.h` -/

def TSL2561_CMD : Nat := 0x80
def TSL2561_CMD_CLEAR : Nat := 0xC0
def TSL2561_REG_CONTROL : Nat := 0x00
def TSL2561_REG_TIMING : Nat := 0x01
def TSL2561_REG_THRESH_L : Nat := 0x02
def TSL2561_REG_THRESH_H : Nat := 0x04
def TSL2561_REG_INTCTL : Nat := 0x06
def TSL2561_REG_ID : Nat := 0x0A
def TSL2561_REG_DATA_0 : Nat := 0x0C
def TSL2561_REG_DATA_1 : Nat := 0x0E

def TSL2561_LUX_K1T : Nat := 0x0040
def TSL2561_LUX_B1T : Nat := 0x01f2
def TSL2561_LUX_M1T : Nat := 0x01be
def TSL2561_LUX_K2T : Nat := 0x0080
def TSL2561_LUX_B2T : Nat := 0x0214
def TSL2561_LUX_M2T : Nat := 0x02d1
def TSL2561_LUX_K3T : Nat := 0x00c0
def TSL2561_LUX_B3T : Nat := 0x023f
def TSL2561_LUX_M3T : Nat := 0x037b
def TSL2561_LUX_K4T : Nat := 0x0100
def TSL2561_LUX_B4T : Nat := 0x0270
def TSL2561_LUX_M4T : Nat := 0x03fe
def TSL2561_LUX_K5T : Nat := 0x0138
def TSL2561_LUX_B5T : Nat := 0x016f
def TSL2561_LUX_M5T : Nat := 0x01fc
def TSL2561_LUX_K6T : Nat := 0x019a
def TSL2561_LUX_B6T : Nat := 0x00d2
def TSL2561_LUX_M6T : Nat := 0x00fb
def TSL2561_LUX_K7T : Nat := 0x029a
def TSL2561_LUX_B7T : Nat := 0x0018
def TSL2561_LUX_M7T : Nat := 0x0012
def TSL2561_LUX_K8T : Nat := 0x029a
def TSL2561_LUX_B8T : Nat := 0x0000
def TSL2561_LUX_M8T : Nat := 0x0000

def TSL2561_AGC_THI_13MS : Nat := 4850
def TSL2561_AGC_TLO_13MS : Nat := 100
def TSL2561_AGC_THI_101MS : Nat := 36000
def TSL2561_AGC_TLO_101MS : Nat := 200
def TSL2561_AGC_THI_402MS : Nat := 63000
def TSL2561_AGC_TLO_402MS : Nat := 500

def TSL2561_CLIPPING_13MS : Nat := 4900
def TSL2561_CLIPPING_101MS : Nat := 37000
def TSL2561_CLIPPING_402MS : Nat := 65000

def TSL2561_LUX_LUXSCALE : Nat := 14
def TSL2561_LUX_RATIOSCALE : Nat := 9
def TSL2561_LUX_CHSCALE : Nat := 10
def TSL2561_LUX_CHSCALE_TINT0 : Nat := 0x7517
def TSL2561_LUX_CHSCALE_TINT1 : Nat := 0x0FE7

/-! ## Machine arithmetic -/

/-- Reduction of a value to the C type `uint8_t`. -/
def u8 (x : Nat) : Nat := x % 2 ^ 8

/-- Reduction of a value to the C type `uint16_t`. -/
def u16 (x : Nat) : Nat := x % 2 ^ 16

/-- Reduction of a value to the 32-bit types `unsigned long`, `unsigned int`, `uint32_t`. -/
def u32 (x : Nat) : Nat := x % 2 ^ 32

/-- Subtraction of two 32-bit unsigned values: the difference modulo `2^32`. -/
def sub32 (a b : Nat) : Nat := (u32 a + (2 ^ 32 - u32 b)) % 2 ^ 32

/-- Bitwise complement `~x` of a constant of type `int`, as a 32-bit pattern. -/
def not32 (x : Nat) : Nat := 2 ^ 32 - 1 - u32 x

/-! ## The bus and the device behind it

`Wire` is the two-wire bus object the driver talks to.  The driver only ever
runs three kinds of transaction (in `readByte`, `readUInt`, `writeByte`); what
the bus answers to the `k`-th transaction is chosen by the environment. -/

/-- What the environment answers to one bus transaction. -/
structure Reply where
  /-- Value returned by `Wire.endTransmission()` (a byte): 0 success, 1..4 errors. -/
  status : Nat
  /-- Value returned by `Wire.available()` after a `Wire.requestFrom`. -/
  avail : Nat
  /-- First byte delivered when the addressed register is a read-only device output. -/
  lo : Nat
  /-- Second byte delivered when the addressed register is a read-only device output. -/
  hi : Nat
deriving DecidableEq, Repr

/-- A transaction the driver has put on the bus. -/
inductive BusOp where
  /-- Command byte `cmd` sent to select a register, `n` bytes to be requested from it. -/
  | recv (cmd n : Nat)
  /-- Command byte `cmd` followed by the data byte `value`. -/
  | send (cmd value : Nat)
deriving DecidableEq, Repr

/-- The bus together with the device: registers 0x00..0x09 hold the last byte
successfully written to them, registers from 0x0A on (part ID, ADC channels) are
outputs of the device whose bytes come with the reply. -/
structure Wire where
  /-- Content of the writable device registers. -/
  regs : Nat → Nat
  /-- Answer of the environment to each transaction, by its number. -/
  env : Nat → Reply
  /-- Number of transactions done so far. -/
  tick : Nat
  /-- Transactions done so far, oldest first. -/
  log : List BusOp

/-- The reply to the transaction about to be run. -/
def Wire.reply (w : Wire) : Reply := w.env w.tick

/-- Byte number `i` (0 or 1) the device delivers for a request that started at register `a`. -/
def Wire.fetch (w : Wire) (a i : Nat) : Nat :=
  if a + i < 0x0A then u8 (w.regs (a + i))
  else if i = 0 then u8 w.reply.lo else u8 w.reply.hi

/-- Run `beginTransmission; write(cmd); endTransmission` (and the request of
`n` bytes that follows when it succeeded). -/
def Wire.select (w : Wire) (cmd n : Nat) : Wire :=
  { w with tick := w.tick + 1, log := w.log ++ [BusOp.recv cmd n] }

/-- Run `beginTransmission; write(cmd); write(value); endTransmission`: the
device stores the byte when the transmission succeeded. -/
def Wire.store (w : Wire) (cmd value : Nat) : Wire :=
  { w with
    regs := if u8 w.reply.status = 0 then Function.update w.regs (cmd &&& 0x0F) (u8 value) else w.regs
    tick := w.tick + 1
    log := w.log ++ [BusOp.send cmd value] }

/-! ## The driver object -/

/-- The fields of `class TSL2561`, and the bus it is attached to. -/
structure TSL2561 where
  _i2c_address : Nat
  _error : Nat
  _gain : Bool
  _it : Nat
  wire : Wire

namespace TSL2561

/-- Source `TSL2561::TSL2561`: default gain x1, default integration time 101 ms. -/
def new (i2c_address : Nat) (wire : Wire) : TSL2561 :=
  { _i2c_address := i2c_address, _error := 0, _gain := false, _it := 1, wire := wire }

/-- Source `TSL2561::readByte`: `value` is written only when the read succeeds. -/
def readByte (s : TSL2561) (address value : Nat) : Bool × Nat × TSL2561 :=
  let cmd : Nat := u8 ((address &&& 0x0F) ||| TSL2561_CMD)
  let s1 : TSL2561 := { s with _error := u8 s.wire.reply.status, wire := s.wire.select cmd 1 }
  if s1._error = 0 then
    if s.wire.reply.avail = 1 then
      (true, u8 (s.wire.fetch (address &&& 0x0F) 0), s1)
    else (false, value, s1)
  else (false, value, s1)

/-- Source `TSL2561::writeByte`. -/
def writeByte (s : TSL2561) (address value : Nat) : Bool × TSL2561 :=
  let cmd : Nat := u8 ((address &&& 0x0F) ||| TSL2561_CMD)
  let s1 : TSL2561 := { s with _error := u8 s.wire.reply.status, wire := s.wire.store cmd (u8 value) }
  if s1._error = 0 then (true, s1) else (false, s1)

/-- Source `TSL2561::readUInt`: low byte first, `value` written only on success. -/
def readUInt (s : TSL2561) (address value : Nat) : Bool × Nat × TSL2561 :=
  let cmd : Nat := u8 ((address &&& 0x0F) ||| TSL2561_CMD)
  let s1 : TSL2561 := { s with _error := u8 s.wire.reply.status, wire := s.wire.select cmd 2 }
  if s1._error = 0 then
    if s.wire.reply.avail = 2 then
      let low : Nat := u8 (s.wire.fetch (address &&& 0x0F) 0)
      let high : Nat := u8 (s.wire.fetch (address &&& 0x0F) 1)
      (true, u16 ((high <<< 8) ||| low), s1)
    else (false, value, s1)
  else (false, value, s1)

/-- Source `TSL2561::writeUInt`: the second byte is written only when the first write succeeded. -/
def writeUInt (s : TSL2561) (address value : Nat) : Bool × TSL2561 :=
  let r1 := s.writeByte address (value &&& 0xFF)
  if r1.1 then
    let r2 := r1.2.writeByte (u8 (address + 1)) (value >>> 8)
    if r2.1 then (true, r2.2) else (false, r2.2)
  else (false, r1.2)

/-- Source `TSL2561::begin`; `Wire.begin()` runs no transaction, and the local `ID` is
declared without a value, 0 stands for it. -/
def begin (s : TSL2561) : Bool × TSL2561 :=
  let r := s.readByte TSL2561_REG_ID 0
  if r.1 ∧ r.2.1 = 0x50 then (true, r.2.2) else (false, r.2.2)

/-- Source `TSL2561::setPowerUp`. -/
def setPowerUp (s : TSL2561) : Bool × TSL2561 :=
  s.writeByte TSL2561_REG_CONTROL 0x03

/-- Source `TSL2561::setPowerDown`. -/
def setPowerDown (s : TSL2561) : Bool × TSL2561 :=
  s.writeByte TSL2561_REG_CONTROL 0x00

/-- Source `TSL2561::setTiming`, result `(return value, ms, object)`: `ms` is assigned on
every path; the local `timing` is declared without a value, 0 stands for it. -/
def setTiming (s : TSL2561) (gain : Bool) (it_switch : Nat) : Bool × Nat × TSL2561 :=
  let ms : Nat :=
    match it_switch with
    | 0 => 14
    | 1 => 101
    | 2 => 402
    | _ => 0
  let r := s.readByte TSL2561_REG_TIMING 0
  if r.1 then
    let timing : Nat := r.2.1
    let timing : Nat := if gain then u8 (timing ||| 0x10) else u8 (timing &&& not32 0x10)
    let timing : Nat := u8 (timing &&& not32 0x03)
    let timing : Nat := u8 (timing ||| (it_switch &&& 0x03))
    let w := r.2.2.writeByte TSL2561_REG_TIMING timing
    if w.1 then
      (true, ms, { w.2 with _gain := gain, _it := it_switch })
    else (false, ms, w.2)
  else (false, ms, r.2.2)

/-- Source `TSL2561::manualStart`. -/
def manualStart (s : TSL2561) : Bool × TSL2561 :=
  let r := s.readByte TSL2561_REG_TIMING 0
  if r.1 then
    let timing : Nat := u8 (r.2.1 ||| 0x03)
    let w1 := r.2.2.writeByte TSL2561_REG_TIMING timing
    if w1.1 then
      let timing : Nat := u8 (timing ||| 0x08)
      let w2 := w1.2.writeByte TSL2561_REG_TIMING timing
      if w2.1 then (true, w2.2) else (false, w2.2)
    else (false, w1.2)
  else (false, r.2.2)

/-- Source `TSL2561::manualStop`. -/
def manualStop (s : TSL2561) : Bool × TSL2561 :=
  let r := s.readByte TSL2561_REG_TIMING 0
  if r.1 then
    let timing : Nat := u8 (r.2.1 &&& not32 0x08)
    let w := r.2.2.writeByte TSL2561_REG_TIMING timing
    if w.1 then (true, w.2) else (false, w.2)
  else (false, r.2.2)

/-- Source `TSL2561::getData`, result `(return value, data0, data1, object)`; the return
value of the two `setTiming` calls is dropped, as in the source. -/
def getData (s : TSL2561) (data0 data1 : Nat) ( autoGain : Bool) : Bool × Nat × Nat × TSL2561 :=
  let r0 := s.readUInt TSL2561_REG_DATA_0 data0
  if !r0.1 then (false, r0.2.1, data1, r0.2.2)
  else
    let r1 := r0.2.2.readUInt TSL2561_REG_DATA_1 data1
    if !r1.1 then (false, r0.2.1, r1.2.1, r1.2.2)
    else
      let data0 : Nat := r0.2.1
      let data1 : Nat := r1.2.1
      let s : TSL2561 := r1.2.2
      if !autoGain then (true, data0, data1, s)
      else
        let hilo : Nat × Nat :=
          match s._it with
          | 0 => (TSL2561_AGC_THI_13MS, TSL2561_AGC_TLO_13MS)
          | 1 => (TSL2561_AGC_THI_101MS, TSL2561_AGC_TLO_101MS)
          | _ => (TSL2561_AGC_THI_402MS, TSL2561_AGC_TLO_402MS)
        if data0 < hilo.2 ∧ !s._gain then
          let t := s.setTiming true s._it
          let q0 := t.2.2.readUInt TSL2561_REG_DATA_0 data0
          if q0.1 then
            let q1 := q0.2.2.readUInt TSL2561_REG_DATA_1 data1
            if q1.1 then (true, q0.2.1, q1.2.1, q1.2.2) else (false, q0.2.1, q1.2.1, q1.2.2)
          else (false, q0.2.1, data1, q0.2.2)
        else if data0 > hilo.1 ∧ s._gain then
          let t := s.setTiming false s._it
          let q0 := t.2.2.readUInt TSL2561_REG_DATA_0 data0
          if q0.1 then
            let q1 := q0.2.2.readUInt TSL2561_REG_DATA_1 data1
            if q1.1 then (true, q0.2.1, q1.2.1, q1.2.2) else (false, q0.2.1, q1.2.1, q1.2.2)
          else (false, q0.2.1, data1, q0.2.2)
        else (true, data0, data1, s)

section Lux
variable {α : Type} [OfScientific α] [NatCast α] [Mul α] [Div α] [Sub α] [LT α]
  [DecidableRel (fun a b : α => a < b)]

/-- Source `TSL2561::getLux`, over any arithmetic `α` standing for the C type `double`
(its literals, the conversion of integers, `*`, `/`, `-`, `<` and the library function
`pow`).  Every path assigns `lux`, so its prior value is no argument. -/
def getLux (pow : α → α → α) (s : TSL2561) (ms CH0 CH1 : Nat) : Bool × α :=
  if CH0 = 0xFFFF ∨ CH1 = 0xFFFF then
    ((false, (0.0 : α)))
  else
    let d0 : α := (CH0 : α)
    let d1 : α := (CH1 : α)
    let ratio : α := d1 / d0
    let d0 : α := d0 * ((402.0 : α) / (ms : α))
    let d1 : α := d1 * ((402.0 : α) / (ms : α))
    let d0 : α := if !s._gain then d0 * ((16 : Nat) : α) else d0
    let d1 : α := if !s._gain then d1 * ((16 : Nat) : α) else d1
    if ratio < (0.5 : α) then
      (true, (0.0304 : α) * d0 - (0.062 : α) * d0 * pow ratio (1.4 : α))
    else if ratio < (0.61 : α) then
      (true, (0.0224 : α) * d0 - (0.031 : α) * d1)
    else if ratio < (0.80 : α) then
      (true, (0.0128 : α) * d0 - (0.0153 : α) * d1)
    else if ratio < (1.30 : α) then
      (true, (0.00146 : α) * d0 - (0.00112 : α) * d1)
    else
      (true, (0.0 : α))

end Lux

/-- Source `TSL2561::getLuxInt`. Every path assigns `lux`, so its prior value is no argument. -/
def getLuxInt (s : TSL2561) (CH0 CH1 : Nat) : Bool × Nat :=
  let clipThreshold : Nat :=
    match s._it with
    | 0 => TSL2561_CLIPPING_13MS
    | 1 => TSL2561_CLIPPING_101MS
    | _ => TSL2561_CLIPPING_402MS
  if CH0 > clipThreshold ∨ CH1 > clipThreshold then
    (false, 0)
  else
    let chScale : Nat :=
      match s._it with
      | 0 => TSL2561_LUX_CHSCALE_TINT0
      | 1 => TSL2561_LUX_CHSCALE_TINT1
      | _ => u32 (1 <<< TSL2561_LUX_CHSCALE)
    let chScale : Nat := if !s._gain then u32 (chScale <<< 4) else chScale
    let channel0 : Nat := u32 (CH0 * chScale) >>> TSL2561_LUX_CHSCALE
    let channel1 : Nat := u32 (CH1 * chScale) >>> TSL2561_LUX_CHSCALE
    let ratio1 : Nat :=
      if channel0 ≠ 0 then u32 (channel1 <<< (TSL2561_LUX_RATIOSCALE + 1)) / channel0 else 0
    let ratio : Nat := u32 (ratio1 + 1) >>> 1
    -- `b` and `m` are declared without a value; 0 stands for it in the branch never taken
    let bm : Nat × Nat :=
      if ratio ≥ 0 ∧ ratio ≤ TSL2561_LUX_K1T then (TSL2561_LUX_B1T, TSL2561_LUX_M1T)
      else if ratio ≤ TSL2561_LUX_K2T then (TSL2561_LUX_B2T, TSL2561_LUX_M2T)
      else if ratio ≤ TSL2561_LUX_K3T then (TSL2561_LUX_B3T, TSL2561_LUX_M3T)
      else if ratio ≤ TSL2561_LUX_K4T then (TSL2561_LUX_B4T, TSL2561_LUX_M4T)
      else if ratio ≤ TSL2561_LUX_K5T then (TSL2561_LUX_B5T, TSL2561_LUX_M5T)
      else if ratio ≤ TSL2561_LUX_K6T then (TSL2561_LUX_B6T, TSL2561_LUX_M6T)
      else if ratio ≤ TSL2561_LUX_K7T then (TSL2561_LUX_B7T, TSL2561_LUX_M7T)
      else if ratio > TSL2561_LUX_K8T then (TSL2561_LUX_B8T, TSL2561_LUX_M8T)
      else (0, 0)
    let temp : Nat := sub32 (u32 (channel0 * bm.1)) (u32 (channel1 * bm.2))
    -- `temp` is unsigned: the test `temp < 0` of the source is the test below
    let temp : Nat := if temp < 0 then 0 else temp
    let temp : Nat := u32 (temp + u32 (1 <<< (TSL2561_LUX_LUXSCALE - 1)))
    (true, u32 (temp >>> TSL2561_LUX_LUXSCALE))


/-- Source `TSL2561::setInterruptControl`. -/
def setInterruptControl (s : TSL2561) (control persist : Nat) : Bool × TSL2561 :=
  let w := s.writeByte TSL2561_REG_INTCTL
    (u8 (((control ||| 0b00000011) <<< 4) &&& (persist ||| 0b00001111)))
  if w.1 then (true, w.2) else (false, w.2)

/-- Source `TSL2561::setInterruptThreshold`. -/
def setInterruptThreshold (s : TSL2561) (low high : Nat) : Bool × TSL2561 :=
  let r1 := s.writeUInt TSL2561_REG_THRESH_L low
  if r1.1 then
    let r2 := r1.2.writeUInt TSL2561_REG_THRESH_H high
    if r2.1 then (true, r2.2) else (false, r2.2)
  else (false, r1.2)

/-- Source `TSL2561::clearInterrupt`. -/
def clearInterrupt (s : TSL2561) : Bool × TSL2561 :=
  let s1 : TSL2561 :=
    { s with _error := u8 s.wire.reply.status, wire := s.wire.select TSL2561_CMD_CLEAR 0 }
  if s1._error = 0 then (true, s1) else (false, s1)

/-- Source `TSL2561::getID`: `ID` is written only when the read succeeds. -/
def getID (s : TSL2561) (ID : Nat) : Bool × Nat × TSL2561 :=
  let r := s.readByte TSL2561_REG_ID ID
  if r.1 then (true, r.2.1, r.2.2) else (false, r.2.1, r.2.2)

/-- Source `TSL2561::getError`. -/
def getError (s : TSL2561) : Nat := s._error

end TSL2561

/-! ## The arithmetic of `double` -/

instance : NatCast Float := ⟨Float.ofNat⟩

/-- Source `TSL2561::getLux` run on IEEE doubles, with the library `pow`. -/
def TSL2561.getLuxDouble (s : TSL2561) (ms CH0 CH1 : Nat) : Bool × Float :=
  TSL2561.getLux Float.pow s ms CH0 CH1

/-! ## The conversions as the specification words them -/

/-- Channel scale of the specification: `0x7517` for Fast, `0x0FE7` for Medium, `2^10`
otherwise, shifted left by 4 when the gain is Low1x (`gain = false`). -/
def specChScale (gain : Bool) (it : Nat) : Int :=
  let c : Int := if it = 0 then 0x7517 else if it = 1 then 0x0FE7 else 2 ^ 10
  if gain then c else c * 2 ^ 4

/-- Scaled channel of the specification: `(CH * chScale) >> 10`. -/
def specScaled (gain : Bool) (it CH : Nat) : Int :=
  (CH * specChScale gain it) / 2 ^ 10

/-- Ratio of the specification: `(((s1 << 10) / s0) + 1) >> 1`, and 0 when `s0 = 0`. -/
def specRatio (s0 s1 : Int) : Int :=
  if s0 = 0 then 0 else ((s1 * 2 ^ 10) / s0 + 1) / 2

/-- Segment of the specification: the row of the first breakpoint among K1T..K7T that the
ratio does not exceed, `(0, 0)` above K7T. -/
def specSegment (ratio : Int) : Int × Int :=
  if ratio ≤ 0x0040 then (0x01f2, 0x01be)
  else if ratio ≤ 0x0080 then (0x0214, 0x02d1)
  else if ratio ≤ 0x00c0 then (0x023f, 0x037b)
  else if ratio ≤ 0x0100 then (0x0270, 0x03fe)
  else if ratio ≤ 0x0138 then (0x016f, 0x01fc)
  else if ratio ≤ 0x019a then (0x00d2, 0x00fb)
  else if ratio ≤ 0x029a then (0x0018, 0x0012)
  else (0, 0)

/-- Integer lux of the specification over unbounded integers:
`(max(0, s0*b - s1*m) + 2^13) >> 14`. -/
def specLuxInt (gain : Bool) (it CH0 CH1 : Nat) : Int :=
  let s0 := specScaled gain it CH0
  let s1 := specScaled gain it CH1
  let bm := specSegment (specRatio s0 s1)
  (max 0 (s0 * bm.1 - s1 * bm.2) + 2 ^ 13) / 2 ^ 14

/-- Clipping threshold of the specification: 4900 for Fast, 37000 for Medium, 65000 for
Long and Manual (and any other cached value). -/
def specClip (it : Nat) : Nat :=
  if it = 0 then 4900 else if it = 1 then 37000 else 65000

/-- High auto-gain threshold: 4850 for Fast, 36000 for Medium, 63000 for Long and Manual. -/
def specHi (it : Nat) : Nat := if it = 0 then 4850 else if it = 1 then 36000 else 63000

/-- Low auto-gain threshold: 100 for Fast, 200 for Medium, 500 for Long and Manual. -/
def specLo (it : Nat) : Nat := if it = 0 then 100 else if it = 1 then 200 else 500

/-- Nominal duration `setTiming` reports for a mode. -/
def nominalMs (it_switch : Nat) : Nat :=
  if it_switch = 0 then 14 else if it_switch = 1 then 101 else if it_switch = 2 then 402 else 0

/-! ## Vocabulary of the statements about the bus -/

/-- The reply of the environment to the transaction `k` steps ahead. -/
def Wire.nth (w : Wire) (k : Nat) : Reply := w.env (w.tick + k)

/-- The transmission of the transaction is acknowledged (`endTransmission` returns 0). -/
def Reply.sent (r : Reply) : Prop := u8 r.status = 0

instance (r : Reply) : Decidable r.sent := inferInstanceAs (Decidable (u8 r.status = 0))

/-- A read of `n` bytes succeeds: transmission acknowledged and `n` bytes available. -/
def Reply.readOK (r : Reply) (n : Nat) : Prop := u8 r.status = 0 ∧ r.avail = n

instance (r : Reply) (n : Nat) : Decidable (r.readOK n) :=
  inferInstanceAs (Decidable (u8 r.status = 0 ∧ r.avail = n))

/-- The 16-bit value a successful read of an ADC channel delivers. -/
def Reply.word (r : Reply) : Nat := u16 ((u8 r.hi <<< 8) ||| u8 r.lo)

/-- The timing byte the device holds. -/
def Wire.timing (w : Wire) : Nat := u8 (w.regs TSL2561_REG_TIMING)

/-- The byte `setTiming` computes from the timing byte `t` it has read. -/
def timingByte (t : Nat) (gain : Bool) (it_switch : Nat) : Nat :=
  u8 (u8 ((if gain then u8 (t ||| 0x10) else u8 (t &&& not32 0x10)) &&& not32 0x03)
    ||| (it_switch &&& 0x03))

/-- The first sample calls for a gain switch: channel 0 below the low threshold at gain
Low1x, or above the high threshold at gain High16x. -/
def TSL2561.outOfRange (s : TSL2561) (c0 : Nat) : Prop :=
  (c0 < specLo s._it ∧ s._gain = false) ∨ (c0 > specHi s._it ∧ s._gain = true)

instance (s : TSL2561) (c0 : Nat) : Decidable (s.outOfRange c0) :=
  inferInstanceAs (Decidable ((c0 < specLo s._it ∧ s._gain = false) ∨
    (c0 > specHi s._it ∧ s._gain = true)))

/-- The object after the two channel reads of a round have succeeded. -/
def TSL2561.afterRound (s : TSL2561) : TSL2561 :=
  { s with _error := 0, wire := (s.wire.select 0x8C 2).select 0x8E 2 }

/-- The transactions a call has added to the log of the bus. -/
def newOps (before after : Wire) : List BusOp := after.log.drop before.log.length

/-- The cached configuration reflects the timing register: the cached gain is bit 4 and the
cached integration mode is bits 1:0 of the byte the register holds. -/
def TSL2561.reflects (s : TSL2561) : Prop :=
  s._gain = s.wire.timing.testBit 4 ∧ s._it = s.wire.timing % 4

instance (s : TSL2561) : Decidable s.reflects :=
  inferInstanceAs (Decidable (s._gain = s.wire.timing.testBit 4 ∧ s._it = s.wire.timing % 4))

/-! ## Sample environments -/

/-- A reply of a transaction that succeeds, delivering `n` bytes with the 16-bit value `v`. -/
def Reply.ok (n v : Nat) : Reply := ⟨0, n, v % 256, v / 256⟩

/-- A reply of a transaction that fails with the bus status `e`. -/
def Reply.fail (e : Nat) : Reply := ⟨e, 0, 0, 0⟩

/-- A bus on which nothing has happened yet: timing register `t`, replies `env`. -/
def Wire.fresh (t : Nat) (env : Nat → Reply) : Wire :=
  ⟨fun a => if a = TSL2561_REG_TIMING then t else 0, env, 0, []⟩

/-- The environment that answers the transactions with the replies of a list, in order,
and with a bus error once the list is used up. -/
def Wire.script (l : List Reply) : Nat → Reply := fun n => l.getD n (Reply.fail 4)

/-- A driver object with the given cached gain and integration mode on a bus where every
transaction succeeds. -/
def TSL2561.sample (gain : Bool) (it : Nat) : TSL2561 :=
  ⟨0x39, 0, gain, it, Wire.fresh 0 (fun _ => Reply.ok 2 0)⟩

/-- A driver object (cached gain Low1x, mode Medium) in front of a device whose timing
register holds `0xAD`, on a bus where every transaction succeeds with one byte available. -/
def timingDemo : TSL2561 :=
  ⟨0x39, 0, false, 1, Wire.fresh 0xAD (fun _ => Reply.ok 1 0)⟩

/-- Fast mode, gain Low1x, first sample (50, 10) with channel 0 below the low threshold 100;
every transaction succeeds and the second round of reads delivers (800, 160). -/
def agcDemo : TSL2561 :=
  ⟨0x39, 0, false, 0, Wire.fresh 0x00 (Wire.script
    [Reply.ok 2 50, Reply.ok 2 10, Reply.ok 1 0, Reply.ok 0 0, Reply.ok 2 800, Reply.ok 2 160])⟩

/-- As `agcDemo`, but the read of the timing register inside the gain switch is not
acknowledged (bus status 2) while the channel reads before and after it succeed. -/
def agcNackDemo : TSL2561 :=
  ⟨0x39, 0, false, 0, Wire.fresh 0x00 (Wire.script
    [Reply.ok 2 50, Reply.ok 2 10, Reply.fail 2, Reply.ok 2 800, Reply.ok 2 160])⟩

/-- Gain Low1x and mode Medium cached, timing register `0x01` in agreement with them, on a
bus where every transaction succeeds with one byte available. -/
def manualDemo : TSL2561 :=
  ⟨0x39, 0, false, 1, Wire.fresh 0x01 (fun _ => Reply.ok 1 0)⟩

/-- As `agcDemo` with a successful gain switch, but the second round of channel reads fails
at channel 1 (bus status 3) after channel 0 has delivered 800. -/
def agcRereadDemo : TSL2561 :=
  ⟨0x39, 0, false, 0, Wire.fresh 0x00 (Wire.script
    [Reply.ok 2 50, Reply.ok 2 10, Reply.ok 1 0, Reply.ok 0 0, Reply.ok 2 800, Reply.fail 3])⟩

/-- Channel 0 is read with the value 50, the read of channel 1 fails (bus status 2). -/
def partialDemo : TSL2561 :=
  ⟨0x39, 0, false, 1, Wire.fresh 0x00 (Wire.script [Reply.ok 2 50, Reply.fail 2])⟩

/-! ## An arithmetic with a non-number

Exact rational arithmetic extended with one non-number, the result of a division by zero:
every operation propagates it and no comparison accepts it.  It is an instance of the
arithmetic `getLux` is written over in which a division by zero does not yield a number. -/

/-- A rational number or the non-number. -/
inductive ExtRat where
  | val (q : ℚ)
  | nan
deriving DecidableEq

/-- Multiplication of `ExtRat`. -/
def ExtRat.mul : ExtRat → ExtRat → ExtRat
  | .val a, .val b => .val (a * b)
  | _, _ => .nan

/-- Subtraction of `ExtRat`. -/
def ExtRat.sub : ExtRat → ExtRat → ExtRat
  | .val a, .val b => .val (a - b)
  | _, _ => .nan

/-- Division of `ExtRat`: a division by zero gives the non-number. -/
def ExtRat.div : ExtRat → ExtRat → ExtRat
  | .val a, .val b => if b = 0 then .nan else .val (a / b)
  | _, _ => .nan

/-- Strict order of `ExtRat`: false as soon as an operand is the non-number. -/
def ExtRat.lt : ExtRat → ExtRat → Prop
  | .val a, .val b => a < b
  | _, _ => False

instance : OfScientific ExtRat := ⟨fun m s e => ExtRat.val (OfScientific.ofScientific m s e)⟩

instance : NatCast ExtRat := ⟨fun n => ExtRat.val (n : ℚ)⟩

instance : Mul ExtRat := ⟨ExtRat.mul⟩

instance : Sub ExtRat := ⟨ExtRat.sub⟩

instance : Div ExtRat := ⟨ExtRat.div⟩

instance : LT ExtRat := ⟨ExtRat.lt⟩

instance : DecidableRel (fun a b : ExtRat => a < b) := fun a b =>
  match a, b with
  | .val x, .val y => inferInstanceAs (Decidable (x < y))
  | .val _, .nan => isFalse (fun h => h)
  | .nan, .val _ => isFalse (fun h => h)
  | .nan, .nan => isFalse (fun h => h)

/-- A stand-in for `pow` on `ExtRat` (the real power is not rational in general). -/
def ExtRat.pow (a _b : ExtRat) : ExtRat := a

/-! ## Agreement of the two conversions -/

/-- The integer lux of `getLuxInt` and the lux of `getLux` read over the real numbers agree
within 2% relative error: `|luxInt - luxFloat| <= 0.02 * luxFloat`. -/
def agreeWithin2 (s : TSL2561) (ms CH0 CH1 : Nat) : Prop :=
  |((s.getLuxInt CH0 CH1).2 : ℝ) - (TSL2561.getLux Real.rpow s ms CH0 CH1).2| ≤
    0.02 * (TSL2561.getLux Real.rpow s ms CH0 CH1).2

/-- A reply of a read whose transmission is acknowledged (status 0) but after which no byte
is available. -/
def Reply.short : Reply := ⟨0, 0, 0, 0⟩

/-- A driver object on a bus where every read is acknowledged but delivers no byte. -/
def shortReadDemo : TSL2561 :=
  ⟨0x39, 0, false, 1, Wire.fresh 0x00 (fun _ => Reply.short)⟩

/-! ## The steps of `getLuxInt`

The intermediate values of `getLuxInt`, each with the expression the source computes it
by; `TSL2561.getLuxInt_steps` shows that `getLuxInt` is their composition. -/

/-- The variable `chScale` of `getLuxInt` after the scaling for the gain. -/
def TSL2561.luxChScale (s : TSL2561) : Nat :=
  let chScale : Nat :=
    match s._it with
    | 0 => TSL2561_LUX_CHSCALE_TINT0
    | 1 => TSL2561_LUX_CHSCALE_TINT1
    | _ => u32 (1 <<< TSL2561_LUX_CHSCALE)
  if !s._gain then u32 (chScale <<< 4) else chScale

/-- The variables `channel0`, `channel1` of `getLuxInt`: a raw value scaled. -/
def TSL2561.luxChannel (s : TSL2561) (CH : Nat) : Nat :=
  u32 (CH * s.luxChScale) >>> TSL2561_LUX_CHSCALE

/-- The variable `ratio` of `getLuxInt`, from the scaled channels. -/
def luxRatio (channel0 channel1 : Nat) : Nat :=
  let ratio1 : Nat :=
    if channel0 ≠ 0 then u32 (channel1 <<< (TSL2561_LUX_RATIOSCALE + 1)) / channel0 else 0
  u32 (ratio1 + 1) >>> 1

/-- The variables `b`, `m` of `getLuxInt`, from the ratio. -/
def luxSegment (ratio : Nat) : Nat × Nat :=
  if ratio ≥ 0 ∧ ratio ≤ TSL2561_LUX_K1T then (TSL2561_LUX_B1T, TSL2561_LUX_M1T)
  else if ratio ≤ TSL2561_LUX_K2T then (TSL2561_LUX_B2T, TSL2561_LUX_M2T)
  else if ratio ≤ TSL2561_LUX_K3T then (TSL2561_LUX_B3T, TSL2561_LUX_M3T)
  else if ratio ≤ TSL2561_LUX_K4T then (TSL2561_LUX_B4T, TSL2561_LUX_M4T)
  else if ratio ≤ TSL2561_LUX_K5T then (TSL2561_LUX_B5T, TSL2561_LUX_M5T)
  else if ratio ≤ TSL2561_LUX_K6T then (TSL2561_LUX_B6T, TSL2561_LUX_M6T)
  else if ratio ≤ TSL2561_LUX_K7T then (TSL2561_LUX_B7T, TSL2561_LUX_M7T)
  else if ratio > TSL2561_LUX_K8T then (TSL2561_LUX_B8T, TSL2561_LUX_M8T)
  else (0, 0)

/-- The coefficient `b` that `getLuxInt` selects for a raw pair. -/
def TSL2561.luxB (s : TSL2561) (CH0 CH1 : Nat) : Nat :=
  (luxSegment (luxRatio (s.luxChannel CH0) (s.luxChannel CH1))).1

/-- The coefficient `m` that `getLuxInt` selects for a raw pair. -/
def TSL2561.luxM (s : TSL2561) (CH0 CH1 : Nat) : Nat :=
  (luxSegment (luxRatio (s.luxChannel CH0) (s.luxChannel CH1))).2

/-- A driver object whose ID register is read successfully with the byte `ID`. -/
def idDemo (ID : Nat) : TSL2561 :=
  ⟨0x39, 0, false, 1, Wire.fresh 0x00 (fun _ => ⟨0, 1, ID, 0⟩)⟩

/-! # Theorems -/

/-! ## The conversions -/

/-- C1 (evaluation at the failing input): in Long mode with gain High16x, CH0 = 0 and
CH1 = 100, `getLuxInt` returns true with lux = 262141, whereas the clamped formula over
unbounded integers gives 0: the unsigned difference wraps around and the clamp never fires. -/
theorem getLuxInt_negative_difference_wraps :
    (TSL2561.sample true 2).getLuxInt 0 100 = (true, 262141) ∧ specLuxInt true 2 0 100 = 0 := by
  constructor
  · rfl
  · decide

/-- C2: whatever the arithmetic of `double`, `getLux` reports saturation (returns false,
and then with lux = 0.0) exactly when CH0 = 0xFFFF or CH1 = 0xFFFF; in particular for
CH0, CH1 < 0xFFFF it returns true. -/
theorem getLux_saturated_iff {α : Type} [OfScientific α] [NatCast α] [Mul α] [Div α] [Sub α]
    [LT α] [DecidableRel (fun a b : α => a < b)] (pow : α → α → α) (s : TSL2561)
    (ms CH0 CH1 : Nat) :
    ((TSL2561.getLux pow s ms CH0 CH1).1 = false ↔ (CH0 = 0xFFFF ∨ CH1 = 0xFFFF)) ∧
    (TSL2561.getLux pow s ms CH0 CH1 = (false, (0.0 : α)) ↔ (CH0 = 0xFFFF ∨ CH1 = 0xFFFF)) ∧
    (CH0 < 0xFFFF → CH1 < 0xFFFF → (TSL2561.getLux pow s ms CH0 CH1).1 = true) := by
  have key : ¬ (CH0 = 0xFFFF ∨ CH1 = 0xFFFF) → (TSL2561.getLux pow s ms CH0 CH1).1 = true := by
    intro h
    unfold TSL2561.getLux
    rw [if_neg h]
    dsimp only
    split_ifs <;> rfl
  have sat : (CH0 = 0xFFFF ∨ CH1 = 0xFFFF) →
      TSL2561.getLux pow s ms CH0 CH1 = (false, (0.0 : α)) := by
    intro h
    unfold TSL2561.getLux
    rw [if_pos h]
  refine ⟨⟨fun h => ?_, fun h => ?_⟩, ⟨fun h => ?_, sat⟩, fun h0 h1 => ?_⟩
  · by_contra hn
    rw [key hn] at h
    exact Bool.noConfusion h
  · rw [sat h]
  · by_contra hn
    have h1 := key hn
    rw [h] at h1
    exact Bool.noConfusion h1
  · exact key (by omega)

/-- C2 on IEEE doubles at ms = 402, CH0 = 100, CH1 = 30: no saturation is reported. -/
theorem getLux_saturated_iff_witness :
    (100 < 0xFFFF ∧ 30 < 0xFFFF) ∧ ((TSL2561.sample true 2).getLuxDouble 402 100 30).1 = true :=
  ⟨⟨by decide, by decide⟩,
    (getLux_saturated_iff Float.pow (TSL2561.sample true 2) 402 100 30).2.2
      (by decide) (by decide)⟩

/-- The first test of `getLuxInt`: the result is `(false, 0)` when a channel exceeds the
clipping threshold, and has return value true otherwise. -/
theorem getLuxInt_clip (s : TSL2561) (CH0 CH1 : Nat) :
    (CH0 > specClip s._it ∨ CH1 > specClip s._it → s.getLuxInt CH0 CH1 = (false, 0)) ∧
    (¬ (CH0 > specClip s._it ∨ CH1 > specClip s._it) → (s.getLuxInt CH0 CH1).1 = true) := by
  have hclip : (match s._it with
      | 0 => TSL2561_CLIPPING_13MS
      | 1 => TSL2561_CLIPPING_101MS
      | _ => TSL2561_CLIPPING_402MS) = specClip s._it := by
    unfold specClip
    split <;> simp_all [TSL2561_CLIPPING_13MS, TSL2561_CLIPPING_101MS, TSL2561_CLIPPING_402MS]
  constructor
  · intro h
    unfold TSL2561.getLuxInt
    simp only [hclip]
    rw [if_pos h]
  · intro h
    unfold TSL2561.getLuxInt
    simp only [hclip]
    rw [if_neg h]

/-- C3: `getLuxInt` reports saturation (returns false, and then with lux = 0) exactly when
CH0 or CH1 exceeds the clipping threshold of the cached integration mode: 4900 for
Fast (0), 37000 for Medium (1), 65000 for Long (2) and Manual (3). -/
theorem getLuxInt_saturated_iff (s : TSL2561) (CH0 CH1 : Nat) :
    ((s.getLuxInt CH0 CH1).1 = false ↔
      (CH0 > (if s._it = 0 then 4900 else if s._it = 1 then 37000 else 65000) ∨
       CH1 > (if s._it = 0 then 4900 else if s._it = 1 then 37000 else 65000))) ∧
    (s.getLuxInt CH0 CH1 = (false, 0) ↔
      (CH0 > (if s._it = 0 then 4900 else if s._it = 1 then 37000 else 65000) ∨
       CH1 > (if s._it = 0 then 4900 else if s._it = 1 then 37000 else 65000))) := by
  have h := getLuxInt_clip s CH0 CH1
  unfold specClip at h
  refine ⟨⟨fun hf => ?_, fun hx => ?_⟩, ⟨fun hf => ?_, fun hx => h.1 hx⟩⟩
  · by_contra hn
    rw [h.2 hn] at hf
    exact Bool.noConfusion hf
  · rw [h.1 hx]
  · by_contra hn
    have h2 := h.2 hn
    rw [hf] at h2
    exact Bool.noConfusion h2

/-- C4 (counterexample): with a channel exactly at the clipping threshold of the mode
(4900 for Fast, 37000 for Medium, 65000 for Long and Manual) and the other channel not above
it, `getLuxInt` does not report saturation: it returns true. -/
theorem getLuxInt_at_threshold_not_saturated :
    (TSL2561.sample true 0).getLuxInt 4900 0 = (true, 4360) ∧
    (TSL2561.sample true 1).getLuxInt 0 37000 ≠ (false, 0) ∧
    (TSL2561.sample true 2).getLuxInt 65000 65000 ≠ (false, 0) ∧
    (TSL2561.sample false 3).getLuxInt 65000 0 ≠ (false, 0) := by
  refine ⟨by rfl, by decide, by decide, by decide⟩

/-- C4 (amended): a raw pair with a channel exactly at the clipping threshold of the cached
mode is reported saturated only when the other channel exceeds the threshold; when neither
channel exceeds it, `getLuxInt` returns true. -/
theorem getLuxInt_at_threshold (s : TSL2561) (CH0 CH1 : Nat)
    (h : CH0 = (if s._it = 0 then 4900 else if s._it = 1 then 37000 else 65000) ∨
         CH1 = (if s._it = 0 then 4900 else if s._it = 1 then 37000 else 65000)) :
    ((s.getLuxInt CH0 CH1).1 = false ↔
      ((CH0 = (if s._it = 0 then 4900 else if s._it = 1 then 37000 else 65000) ∧
        CH1 > (if s._it = 0 then 4900 else if s._it = 1 then 37000 else 65000)) ∨
       (CH1 = (if s._it = 0 then 4900 else if s._it = 1 then 37000 else 65000) ∧
        CH0 > (if s._it = 0 then 4900 else if s._it = 1 then 37000 else 65000)))) ∧
    (CH0 ≤ (if s._it = 0 then 4900 else if s._it = 1 then 37000 else 65000) →
     CH1 ≤ (if s._it = 0 then 4900 else if s._it = 1 then 37000 else 65000) →
     (s.getLuxInt CH0 CH1).1 = true) := by
  have hc := getLuxInt_clip s CH0 CH1
  unfold specClip at hc
  refine ⟨⟨fun hf => ?_, fun hx => ?_⟩, fun h0 h1 => hc.2 (by omega)⟩
  · by_contra hn
    have hle : ¬ (CH0 > (if s._it = 0 then 4900 else if s._it = 1 then 37000 else 65000) ∨
        CH1 > (if s._it = 0 then 4900 else if s._it = 1 then 37000 else 65000)) := by omega
    rw [hc.2 hle] at hf
    exact Bool.noConfusion hf
  · rw [hc.1 (by omega)]

/-- C4 (amended) at Fast mode, CH0 = 4900, CH1 = 0: the result is not saturated. -/
theorem getLuxInt_at_threshold_witness :
    ((TSL2561.sample true 0).getLuxInt 4900 0).1 = true :=
  (getLuxInt_at_threshold (TSL2561.sample true 0) 4900 0 (Or.inl rfl)).2
    (by decide) (by decide)

/-! ## Bus transactions -/

theorem u8_u8 (x : Nat) : u8 (u8 x) = u8 x := by
  unfold u8
  exact Nat.mod_mod _ _

theorem u8_lt (x : Nat) : u8 x < 256 := by
  unfold u8
  exact Nat.mod_lt _ (by norm_num)

theorem u8_timingByte (t : Nat) (gain : Bool) (m : Nat) :
    u8 (timingByte t gain m) = timingByte t gain m := by
  unfold timingByte
  exact u8_u8 _

theorem timingByte_bits (t : Nat) (gain : Bool) (m : Nat) (hm : m ≤ 3) :
    timingByte (u8 t) gain m < 256 ∧
    (timingByte (u8 t) gain m).testBit 4 = gain ∧
    timingByte (u8 t) gain m % 4 = m ∧
    (timingByte (u8 t) gain m).testBit 2 = (u8 t).testBit 2 ∧
    (timingByte (u8 t) gain m).testBit 3 = (u8 t).testBit 3 ∧
    (timingByte (u8 t) gain m).testBit 5 = (u8 t).testBit 5 ∧
    (timingByte (u8 t) gain m).testBit 6 = (u8 t).testBit 6 ∧
    (timingByte (u8 t) gain m).testBit 7 = (u8 t).testBit 7 := by
  have h : ∀ t < 256, ∀ gain : Bool, ∀ m < 4,
      timingByte t gain m < 256 ∧
      (timingByte t gain m).testBit 4 = gain ∧
      timingByte t gain m % 4 = m ∧
      (timingByte t gain m).testBit 2 = t.testBit 2 ∧
      (timingByte t gain m).testBit 3 = t.testBit 3 ∧
      (timingByte t gain m).testBit 5 = t.testBit 5 ∧
      (timingByte t gain m).testBit 6 = t.testBit 6 ∧
      (timingByte t gain m).testBit 7 = t.testBit 7 := by
    decide!
  exact h (u8 t) (u8_lt t) gain m (by omega)

namespace TSL2561

theorem readByte_ok (s : TSL2561) (a v : Nat) (h : (s.wire.nth 0).readOK 1) :
    s.readByte a v =
      (true, u8 (s.wire.fetch (a &&& 0x0F) 0),
        { s with _error := 0, wire := s.wire.select (u8 ((a &&& 0x0F) ||| TSL2561_CMD)) 1 }) := by
  obtain ⟨h1, h2⟩ := h
  simp only [Wire.nth, Nat.add_zero] at h1 h2
  simp [readByte, Wire.reply, h1, h2]

theorem readByte_fail (s : TSL2561) (a v : Nat) (h : ¬ (s.wire.nth 0).readOK 1) :
    s.readByte a v =
      (false, v, { s with _error := u8 (s.wire.nth 0).status,
                          wire := s.wire.select (u8 ((a &&& 0x0F) ||| TSL2561_CMD)) 1 }) := by
  simp only [Reply.readOK, Wire.nth, Nat.add_zero, not_and] at h
  simp only [readByte, Wire.reply, Wire.nth, Nat.add_zero]
  by_cases h1 : u8 (s.wire.env s.wire.tick).status = 0
  · simp [h1, h h1]
  · simp [h1]

theorem readUInt_ok (s : TSL2561) (a v : Nat) (h : (s.wire.nth 0).readOK 2) :
    s.readUInt a v =
      (true, u16 ((u8 (s.wire.fetch (a &&& 0x0F) 1) <<< 8) ||| u8 (s.wire.fetch (a &&& 0x0F) 0)),
        { s with _error := 0, wire := s.wire.select (u8 ((a &&& 0x0F) ||| TSL2561_CMD)) 2 }) := by
  obtain ⟨h1, h2⟩ := h
  simp only [Wire.nth, Nat.add_zero] at h1 h2
  simp [readUInt, Wire.reply, h1, h2]

theorem readUInt_fail (s : TSL2561) (a v : Nat) (h : ¬ (s.wire.nth 0).readOK 2) :
    s.readUInt a v =
      (false, v, { s with _error := u8 (s.wire.nth 0).status,
                          wire := s.wire.select (u8 ((a &&& 0x0F) ||| TSL2561_CMD)) 2 }) := by
  simp only [Reply.readOK, Wire.nth, Nat.add_zero, not_and] at h
  simp only [readUInt, Wire.reply, Wire.nth, Nat.add_zero]
  by_cases h1 : u8 (s.wire.env s.wire.tick).status = 0
  · simp [h1, h h1]
  · simp [h1]

theorem writeByte_ok (s : TSL2561) (a v : Nat) (h : (s.wire.nth 0).sent) :
    s.writeByte a v =
      (true, { s with _error := 0,
                      wire := s.wire.store (u8 ((a &&& 0x0F) ||| TSL2561_CMD)) (u8 v) }) := by
  simp only [Reply.sent, Wire.nth, Nat.add_zero] at h
  simp [writeByte, Wire.reply, h]

theorem writeByte_fail (s : TSL2561) (a v : Nat) (h : ¬ (s.wire.nth 0).sent) :
    s.writeByte a v =
      (false, { s with _error := u8 (s.wire.nth 0).status,
                       wire := s.wire.store (u8 ((a &&& 0x0F) ||| TSL2561_CMD)) (u8 v) }) := by
  simp only [Reply.sent, Wire.nth, Nat.add_zero] at h
  simp [writeByte, Wire.reply, Wire.nth, h]

end TSL2561

/-! ## The timing register -/

theorem Wire.nth_select (w : Wire) (c n k : Nat) : (w.select c n).nth k = w.nth (k + 1) := by
  simp [Wire.nth, Wire.select, Nat.add_comm k 1, Nat.add_assoc]

theorem Wire.nth_store (w : Wire) (c v k : Nat) : (w.store c v).nth k = w.nth (k + 1) := by
  simp [Wire.nth, Wire.store, Nat.add_comm k 1, Nat.add_assoc]

theorem Wire.timing_select (w : Wire) (c n : Nat) : (w.select c n).timing = w.timing := rfl

theorem Wire.u8_timing (w : Wire) : u8 w.timing = w.timing := u8_u8 _

theorem cmd_timing : u8 ((TSL2561_REG_TIMING &&& 0x0F) ||| TSL2561_CMD) = 0x81 := by decide

theorem cmd_data0 : u8 ((TSL2561_REG_DATA_0 &&& 0x0F) ||| TSL2561_CMD) = 0x8C := by decide

theorem cmd_data1 : u8 ((TSL2561_REG_DATA_1 &&& 0x0F) ||| TSL2561_CMD) = 0x8E := by decide

theorem Wire.fetch_timing (w : Wire) : w.fetch (TSL2561_REG_TIMING &&& 0x0F) 0 = w.timing := by
  simp [Wire.fetch, Wire.timing, TSL2561_REG_TIMING]

namespace TSL2561

theorem setTiming_ms (s : TSL2561) (gain : Bool) (it : Nat) :
    (s.setTiming gain it).2.1 = nominalMs it := by
  have hms : (match it with
      | 0 => 14
      | 1 => 101
      | 2 => 402
      | _ => 0) = nominalMs it := by
    unfold nominalMs
    split <;> simp_all
  unfold setTiming
  simp only [hms]
  split_ifs <;> rfl

theorem setTiming_read_fail (s : TSL2561) (gain : Bool) (it : Nat)
    (h : ¬ (s.wire.nth 0).readOK 1) :
    s.setTiming gain it =
      (false, nominalMs it, { s with _error := u8 (s.wire.nth 0).status,
                                     wire := s.wire.select 0x81 1 }) := by
  have hms := setTiming_ms s gain it
  unfold setTiming at hms ⊢
  rw [readByte_fail s _ _ h] at hms ⊢
  simp only [Bool.false_eq_true, if_false] at hms ⊢
  rw [← hms]
  rfl

theorem setTiming_write_fail (s : TSL2561) (gain : Bool) (it : Nat)
    (hr : (s.wire.nth 0).readOK 1) (hw : ¬ (s.wire.nth 1).sent) :
    s.setTiming gain it =
      (false, nominalMs it,
        { s with _error := u8 (s.wire.nth 1).status,
                 wire := (s.wire.select 0x81 1).store 0x81 (timingByte s.wire.timing gain it) }) := by
  have hms := setTiming_ms s gain it
  have hw2 : ¬ ((s.wire.select (u8 ((TSL2561_REG_TIMING &&& 0x0F) ||| TSL2561_CMD)) 1).nth 0).sent := by
    simpa [Wire.nth_select] using hw
  unfold setTiming at hms ⊢
  rw [readByte_ok s _ _ hr] at hms ⊢
  simp only [if_true] at hms ⊢
  rw [writeByte_fail _ _ _ hw2] at hms ⊢
  simp only [Bool.false_eq_true, if_false] at hms ⊢
  rw [← hms]
  simp [Wire.nth_select, Wire.fetch_timing, timingByte, u8_u8, Wire.u8_timing, cmd_timing]

theorem setTiming_ok (s : TSL2561) (gain : Bool) (it : Nat)
    (hr : (s.wire.nth 0).readOK 1) (hw : (s.wire.nth 1).sent) :
    s.setTiming gain it =
      (true, nominalMs it,
        { s with _error := 0, _gain := gain, _it := it,
                 wire := (s.wire.select 0x81 1).store 0x81 (timingByte s.wire.timing gain it) }) := by
  have hms := setTiming_ms s gain it
  have hw2 : ((s.wire.select (u8 ((TSL2561_REG_TIMING &&& 0x0F) ||| TSL2561_CMD)) 1).nth 0).sent := by
    simpa [Wire.nth_select] using hw
  unfold setTiming at hms ⊢
  rw [readByte_ok s _ _ hr] at hms ⊢
  simp only [if_true] at hms ⊢
  rw [writeByte_ok _ _ _ hw2] at hms ⊢
  simp only [if_true] at hms ⊢
  rw [← hms]
  simp [Wire.fetch_timing, timingByte, u8_u8, Wire.u8_timing, cmd_timing]

end TSL2561

/-- C5: when the read of the timing register and the write-back both succeed, `setTiming`
puts exactly two transactions on the bus, a read of the timing register and a write to it of
a byte `b` whose bit 4 is the requested gain, whose bits 1:0 are the requested mode (0..3)
and whose bits 2, 3, 5, 6, 7 are those of the byte `t` read; the register then holds `b`
and a following successful read of it returns `b`. -/
theorem setTiming_written_byte (s : TSL2561) (gain : Bool) (it v : Nat) (hit : it ≤ 3)
    (hr : (s.wire.nth 0).readOK 1) (hw : (s.wire.nth 1).sent) :
    ∃ b : Nat,
      (s.setTiming gain it).2.2.wire.log =
        s.wire.log ++ [BusOp.recv 0x81 1, BusOp.send 0x81 b] ∧
      b < 256 ∧ b.testBit 4 = gain ∧ b % 4 = it ∧
      (∀ k ∈ [2, 3, 5, 6, 7], b.testBit k = s.wire.timing.testBit k) ∧
      (s.setTiming gain it).2.2.wire.timing = b ∧
      ((s.wire.nth 2).readOK 1 →
        ((s.setTiming gain it).2.2.readByte TSL2561_REG_TIMING v).1 = true ∧
        ((s.setTiming gain it).2.2.readByte TSL2561_REG_TIMING v).2.1 = b) := by
  have hb := timingByte_bits (s.wire.regs TSL2561_REG_TIMING) gain it hit
  have hsent : u8 (s.wire.env (s.wire.tick + 1)).status = 0 := hw
  have htim : ((s.wire.select 0x81 1).store 0x81 (timingByte s.wire.timing gain it)).timing =
      timingByte s.wire.timing gain it := by
    have h15 : (129 &&& 15 : Nat) = 1 := by decide
    simp [Wire.timing, Wire.store, Wire.select, Wire.reply, hsent, TSL2561_REG_TIMING, h15,
      u8_timingByte, u8_u8]
  refine ⟨timingByte s.wire.timing gain it, ?_, hb.1, hb.2.1, hb.2.2.1, ?_, ?_, ?_⟩
  · rw [TSL2561.setTiming_ok s gain it hr hw]
    simp [Wire.store, Wire.select]
  · intro k hk
    simp only [List.mem_cons, List.mem_singleton, List.not_mem_nil, or_false] at hk
    rcases hk with rfl | rfl | rfl | rfl | rfl
    · exact hb.2.2.2.1
    · exact hb.2.2.2.2.1
    · exact hb.2.2.2.2.2.1
    · exact hb.2.2.2.2.2.2.1
    · exact hb.2.2.2.2.2.2.2
  · rw [TSL2561.setTiming_ok s gain it hr hw]
    exact htim
  · intro h2
    rw [TSL2561.setTiming_ok s gain it hr hw]
    have h2' : (((s.wire.select 0x81 1).store 0x81 (timingByte s.wire.timing gain it)).nth 0).readOK 1 := by
      rw [Wire.nth_store, Wire.nth_select]
      exact h2
    rw [TSL2561.readByte_ok _ _ _ h2']
    refine ⟨rfl, ?_⟩
    show u8 (Wire.fetch _ (TSL2561_REG_TIMING &&& 0x0F) 0) = _
    rw [Wire.fetch_timing, Wire.u8_timing]
    exact htim

/-- C5 at gain High16x, mode Long, prior timing byte `0xAD`: the byte written is `0xBE`. -/
theorem setTiming_written_byte_witness :
    ∃ b : Nat,
      (timingDemo.setTiming true 2).2.2.wire.log =
        timingDemo.wire.log ++ [BusOp.recv 0x81 1, BusOp.send 0x81 b] ∧
      b < 256 ∧ b.testBit 4 = true ∧ b % 4 = 2 ∧
      (∀ k ∈ [2, 3, 5, 6, 7], b.testBit k = timingDemo.wire.timing.testBit k) ∧
      (timingDemo.setTiming true 2).2.2.wire.timing = b ∧
      ((timingDemo.wire.nth 2).readOK 1 →
        ((timingDemo.setTiming true 2).2.2.readByte TSL2561_REG_TIMING 0).1 = true ∧
        ((timingDemo.setTiming true 2).2.2.readByte TSL2561_REG_TIMING 0).2.1 = b) :=
  setTiming_written_byte timingDemo true 2 0 (by decide) (by decide) (by decide)

/-- C6: `setTiming` returns true exactly when the read of the timing register and the
write-back both succeed; when it returns false the cached gain and mode are those before the
call; when it returns true they are the requested ones and `ms` is the nominal duration of
the requested mode (14 for 0, 101 for 1, 402 for 2, 0 for 3). -/
theorem setTiming_result (s : TSL2561) (gain : Bool) (it : Nat) :
    ((s.setTiming gain it).1 = true ↔ ((s.wire.nth 0).readOK 1 ∧ (s.wire.nth 1).sent)) ∧
    ((s.setTiming gain it).1 = false →
      (s.setTiming gain it).2.2._gain = s._gain ∧ (s.setTiming gain it).2.2._it = s._it) ∧
    ((s.setTiming gain it).1 = true →
      (s.setTiming gain it).2.2._gain = gain ∧ (s.setTiming gain it).2.2._it = it ∧
      (s.setTiming gain it).2.1 =
        (if it = 0 then 14 else if it = 1 then 101 else if it = 2 then 402 else 0)) := by
  by_cases hr : (s.wire.nth 0).readOK 1
  · by_cases hw : (s.wire.nth 1).sent
    · rw [TSL2561.setTiming_ok s gain it hr hw]
      simp [hr, hw, nominalMs]
    · rw [TSL2561.setTiming_write_fail s gain it hr hw]
      simp [hr, hw]
  · rw [TSL2561.setTiming_read_fail s gain it hr]
    simp [hr]

/-- C6 at gain High16x, mode Long on a bus where both transactions succeed. -/
theorem setTiming_result_witness :
    (timingDemo.setTiming true 2).2.2._gain = true ∧ (timingDemo.setTiming true 2).2.2._it = 2 ∧
      (timingDemo.setTiming true 2).2.1 =
        (if 2 = 0 then 14 else if 2 = 1 then 101 else if 2 = 2 then 402 else 0) :=
  (setTiming_result timingDemo true 2).2.2
    ((setTiming_result timingDemo true 2).1.mpr ⟨by decide, by decide⟩)

/-! ## Acquisition -/

theorem Wire.fetch_data (w : Wire) (a : Nat) (ha : 0x0A ≤ a) :
    w.fetch a 0 = u8 (w.nth 0).lo ∧ w.fetch a 1 = u8 (w.nth 0).hi := by
  have h0 : ¬ a + 0 < 10 := by omega
  have h1 : ¬ a + 1 < 10 := by omega
  have h2 : ¬ a < 10 := by omega
  simp [Wire.fetch, Wire.nth, Wire.reply, h1, h2]

theorem agc_thresholds (it : Nat) :
    (match it with
      | 0 => (TSL2561_AGC_THI_13MS, TSL2561_AGC_TLO_13MS)
      | 1 => (TSL2561_AGC_THI_101MS, TSL2561_AGC_TLO_101MS)
      | _ => (TSL2561_AGC_THI_402MS, TSL2561_AGC_TLO_402MS)) = (specHi it, specLo it) := by
  unfold specHi specLo
  split <;> simp_all [TSL2561_AGC_THI_13MS, TSL2561_AGC_TLO_13MS, TSL2561_AGC_THI_101MS,
    TSL2561_AGC_TLO_101MS, TSL2561_AGC_THI_402MS, TSL2561_AGC_TLO_402MS]

namespace TSL2561

theorem readUInt_data0 (s : TSL2561) (v : Nat) (h : (s.wire.nth 0).readOK 2) :
    s.readUInt TSL2561_REG_DATA_0 v =
      (true, (s.wire.nth 0).word, { s with _error := 0, wire := s.wire.select 0x8C 2 }) := by
  rw [readUInt_ok s _ _ h, cmd_data0]
  have hf := Wire.fetch_data s.wire (TSL2561_REG_DATA_0 &&& 0x0F) (by decide)
  rw [hf.1, hf.2, u8_u8, u8_u8]
  rfl

theorem readUInt_data1 (s : TSL2561) (v : Nat) (h : (s.wire.nth 0).readOK 2) :
    s.readUInt TSL2561_REG_DATA_1 v =
      (true, (s.wire.nth 0).word, { s with _error := 0, wire := s.wire.select 0x8E 2 }) := by
  rw [readUInt_ok s _ _ h, cmd_data1]
  have hf := Wire.fetch_data s.wire (TSL2561_REG_DATA_1 &&& 0x0F) (by decide)
  rw [hf.1, hf.2, u8_u8, u8_u8]
  rfl

theorem readUInt_data0_fail (s : TSL2561) (v : Nat) (h : ¬ (s.wire.nth 0).readOK 2) :
    s.readUInt TSL2561_REG_DATA_0 v =
      (false, v, { s with _error := u8 (s.wire.nth 0).status, wire := s.wire.select 0x8C 2 }) := by
  rw [readUInt_fail s _ _ h, cmd_data0]

theorem readUInt_data1_fail (s : TSL2561) (v : Nat) (h : ¬ (s.wire.nth 0).readOK 2) :
    s.readUInt TSL2561_REG_DATA_1 v =
      (false, v, { s with _error := u8 (s.wire.nth 0).status, wire := s.wire.select 0x8E 2 }) := by
  rw [readUInt_fail s _ _ h, cmd_data1]

/-- Both channel reads succeed and no gain switch is called for: the first sample is
returned and nothing else happens. -/
theorem getData_no_switch (s : TSL2561) (d0 d1 : Nat) ( autoGain : Bool)
    (h0 : (s.wire.nth 0).readOK 2) (h1 : (s.wire.nth 1).readOK 2)
    (hc : ¬ (autoGain = true ∧ s.outOfRange (s.wire.nth 0).word)) :
    s.getData d0 d1 autoGain = (true, (s.wire.nth 0).word, (s.wire.nth 1).word, s.afterRound) := by
  have h1' : ((s.wire.select 0x8C 2).nth 0).readOK 2 := by
    rw [Wire.nth_select]
    exact h1
  unfold getData
  rw [readUInt_data0 s d0 h0]
  simp only [Bool.not_true, Bool.false_eq_true, if_false]
  rw [readUInt_data1 _ d1 h1']
  simp only [Bool.not_true, Bool.false_eq_true, if_false, agc_thresholds, Wire.nth_select]
  cases autoGain
  · rfl
  · simp only [true_and, outOfRange] at hc
    simp only [Bool.not_true, Bool.false_eq_true, if_false]
    have ha : ¬ ((s.wire.nth 0).word < specLo s._it ∧ (!s._gain) = true) := by
      intro h
      exact hc (Or.inl ⟨h.1, by simpa using h.2⟩)
    have hb : ¬ ((s.wire.nth 0).word > specHi s._it ∧ s._gain = true) := by
      intro h
      exact hc (Or.inr h)
    rw [if_neg ha, if_neg hb]
    rfl

/-- Without auto-gain `getData` is one round of channel reads. -/
theorem getData_plain (t : TSL2561) (c0 c1 : Nat) :
    t.getData c0 c1 false =
      if (t.readUInt TSL2561_REG_DATA_0 c0).1 then
        if ((t.readUInt TSL2561_REG_DATA_0 c0).2.2.readUInt TSL2561_REG_DATA_1 c1).1 then
          (true, (t.readUInt TSL2561_REG_DATA_0 c0).2.1,
            ((t.readUInt TSL2561_REG_DATA_0 c0).2.2.readUInt TSL2561_REG_DATA_1 c1).2.1,
            ((t.readUInt TSL2561_REG_DATA_0 c0).2.2.readUInt TSL2561_REG_DATA_1 c1).2.2)
        else
          (false, (t.readUInt TSL2561_REG_DATA_0 c0).2.1,
            ((t.readUInt TSL2561_REG_DATA_0 c0).2.2.readUInt TSL2561_REG_DATA_1 c1).2.1,
            ((t.readUInt TSL2561_REG_DATA_0 c0).2.2.readUInt TSL2561_REG_DATA_1 c1).2.2)
      else (false, (t.readUInt TSL2561_REG_DATA_0 c0).2.1, c1,
            (t.readUInt TSL2561_REG_DATA_0 c0).2.2) := by
  unfold getData
  by_cases h0 : (t.readUInt TSL2561_REG_DATA_0 c0).1 = true
  · by_cases h1 : ((t.readUInt TSL2561_REG_DATA_0 c0).2.2.readUInt TSL2561_REG_DATA_1 c1).1 = true
    · simp [h0, h1]
    · simp [h0, h1]
  · simp [h0]

/-- Both channel reads succeed and a gain switch is called for: `getData` calls `setTiming`
with the other gain and the cached mode, drops its result, and ends with one more round of
channel reads, which behaves as a call of `getData` without auto-gain. -/
theorem getData_switch (s : TSL2561) (d0 d1 : Nat)
    (h0 : (s.wire.nth 0).readOK 2) (h1 : (s.wire.nth 1).readOK 2)
    (hc : s.outOfRange (s.wire.nth 0).word) :
    s.getData d0 d1 true =
      (s.afterRound.setTiming (!s._gain) s._it).2.2.getData
        (s.wire.nth 0).word (s.wire.nth 1).word false := by
  have h1' : ((s.wire.select 0x8C 2).nth 0).readOK 2 := by
    rw [Wire.nth_select]
    exact h1
  rw [getData_plain]
  unfold getData
  rw [readUInt_data0 s d0 h0]
  simp only [Bool.not_true, Bool.false_eq_true, if_false]
  rw [readUInt_data1 _ d1 h1']
  simp only [Bool.not_true, Bool.false_eq_true, if_false, agc_thresholds, Wire.nth_select,
    Nat.zero_add, afterRound]
  rcases hc with ⟨hlo, hg⟩ | ⟨hhi, hg⟩
  · have ha : (s.wire.nth 0).word < specLo s._it ∧ (!s._gain) = true := ⟨hlo, by simp [hg]⟩
    rw [if_pos ha]
    simp only [hg, Bool.not_false]
  · have ha : ¬ ((s.wire.nth 0).word < specLo s._it ∧ (!s._gain) = true) := by simp [hg]
    have hb : (s.wire.nth 0).word > specHi s._it ∧ s._gain = true := ⟨hhi, hg⟩
    rw [if_neg ha, if_pos hb]
    simp only [hg, Bool.not_true]

end TSL2561

theorem TSL2561.getData_switch_ok (s : TSL2561) (d0 d1 : Nat)
    (h0 : (s.wire.nth 0).readOK 2) (h1 : (s.wire.nth 1).readOK 2)
    (h2 : (s.wire.nth 2).readOK 1) (h3 : (s.wire.nth 3).sent)
    (h4 : (s.wire.nth 4).readOK 2) (h5 : (s.wire.nth 5).readOK 2)
    (hc : s.outOfRange (s.wire.nth 0).word) :
    s.getData d0 d1 true =
      (true, (s.wire.nth 4).word, (s.wire.nth 5).word,
        TSL2561.afterRound
          { s with _error := 0, _gain := !s._gain,
                   wire := (s.afterRound.wire.select 0x81 1).store 0x81
                     (timingByte s.wire.timing (!s._gain) s._it) }) := by
  have e2 : (s.afterRound.wire.nth 0).readOK 1 := by
    simpa [TSL2561.afterRound, Wire.nth_select] using h2
  have e3 : (s.afterRound.wire.nth 1).sent := by
    simpa [TSL2561.afterRound, Wire.nth_select] using h3
  rw [TSL2561.getData_switch s d0 d1 h0 h1 hc, TSL2561.setTiming_ok _ _ _ e2 e3]
  rw [TSL2561.getData_no_switch _ _ _ false
    (by simpa [TSL2561.afterRound, Wire.nth_select, Wire.nth_store] using h4)
    (by simpa [TSL2561.afterRound, Wire.nth_select, Wire.nth_store] using h5)
    (by simp)]
  simp only [TSL2561.afterRound, Wire.nth_select, Wire.nth_store, Wire.timing_select]

/-- C9: with auto-gain, a cached mode in 0..3 and every bus operation succeeding, a first
sample that is out of range (channel 0 below `lo` at gain Low1x, or above `hi` at gain
High16x) makes `getData` run exactly six transactions: the two channel reads, the read of
the timing register, one write to it of a byte whose bit 4 is the new gain (set when going
to High16x, cleared when going to Low1x) and whose bits 1:0 are the cached mode, and one
more round of the two channel reads.  It returns true with the values of that second round,
whatever they are, the cached gain switched once and the cached mode unchanged. -/
theorem getData_autogain_once (s : TSL2561) (d0 d1 : Nat) (hit : s._it ≤ 3)
    (h0 : (s.wire.nth 0).readOK 2) (h1 : (s.wire.nth 1).readOK 2)
    (h2 : (s.wire.nth 2).readOK 1) (h3 : (s.wire.nth 3).sent)
    (h4 : (s.wire.nth 4).readOK 2) (h5 : (s.wire.nth 5).readOK 2)
    (hc : ((s.wire.nth 0).word < specLo s._it ∧ s._gain = false) ∨
          ((s.wire.nth 0).word > specHi s._it ∧ s._gain = true)) :
    ∃ b : Nat,
      (s.getData d0 d1 true).1 = true ∧
      (s.getData d0 d1 true).2.1 = (s.wire.nth 4).word ∧
      (s.getData d0 d1 true).2.2.1 = (s.wire.nth 5).word ∧
      (s.getData d0 d1 true).2.2.2._gain = (!s._gain) ∧
      (s.getData d0 d1 true).2.2.2._it = s._it ∧
      newOps s.wire (s.getData d0 d1 true).2.2.2.wire =
        [BusOp.recv 0x8C 2, BusOp.recv 0x8E 2, BusOp.recv 0x81 1, BusOp.send 0x81 b,
         BusOp.recv 0x8C 2, BusOp.recv 0x8E 2] ∧
      b.testBit 4 = (!s._gain) ∧ b % 4 = s._it := by
  have hb := timingByte_bits (s.wire.regs TSL2561_REG_TIMING) (!s._gain) s._it hit
  refine ⟨timingByte s.wire.timing (!s._gain) s._it, ?_⟩
  rw [TSL2561.getData_switch_ok s d0 d1 h0 h1 h2 h3 h4 h5 hc]
  refine ⟨rfl, rfl, rfl, rfl, rfl, ?_, hb.2.1, hb.2.2.1⟩
  simp [newOps, TSL2561.afterRound, Wire.select, Wire.store]

/-- C9 at Fast, Low1x, channel 0 = 50: one switch to High16x and one re-read, whose
values (800, 160) are returned. -/
theorem getData_autogain_once_witness :
    ∃ b : Nat,
      (agcDemo.getData 0 0 true).1 = true ∧
      (agcDemo.getData 0 0 true).2.1 = (agcDemo.wire.nth 4).word ∧
      (agcDemo.getData 0 0 true).2.2.1 = (agcDemo.wire.nth 5).word ∧
      (agcDemo.getData 0 0 true).2.2.2._gain = (!agcDemo._gain) ∧
      (agcDemo.getData 0 0 true).2.2.2._it = agcDemo._it ∧
      newOps agcDemo.wire (agcDemo.getData 0 0 true).2.2.2.wire =
        [BusOp.recv 0x8C 2, BusOp.recv 0x8E 2, BusOp.recv 0x81 1, BusOp.send 0x81 b,
         BusOp.recv 0x8C 2, BusOp.recv 0x8E 2] ∧
      b.testBit 4 = (!agcDemo._gain) ∧ b % 4 = agcDemo._it :=
  getData_autogain_once agcDemo 0 0 (by decide) (by decide) (by decide) (by decide)
    (by decide) (by decide) (by decide) (Or.inl (by decide))

/-- C10 (evaluation at the failing input): Fast, Low1x, first sample (50, 10); the gain
switch fails on the bus (the read of the timing register is not acknowledged, so `setTiming`
returns false and the gain stays Low1x), the channel reads after it succeed, and `getData`
returns true with the values (800, 160) of the second round. -/
theorem getData_ignores_failed_switch :
    agcNackDemo.outOfRange 50 ∧
    (agcNackDemo.afterRound.setTiming true 0).1 = false ∧
    (agcNackDemo.getData 0 0 true).1 = true ∧
    (agcNackDemo.getData 0 0 true).2.1 = 800 ∧
    (agcNackDemo.getData 0 0 true).2.2.1 = 160 ∧
    (agcNackDemo.getData 0 0 true).2.2.2._gain = false ∧
    (agcNackDemo.getData 0 0 true).2.2.2._error = 0 := by
  decide

theorem TSL2561.setTiming_log (s : TSL2561) (gain : Bool) (it : Nat) :
    (s.setTiming gain it).2.2.wire.log =
      s.wire.log ++ (BusOp.recv 0x81 1 ::
        if (s.wire.nth 0).readOK 1 then [BusOp.send 0x81 (timingByte s.wire.timing gain it)]
        else []) := by
  by_cases hr : (s.wire.nth 0).readOK 1
  · by_cases hw : (s.wire.nth 1).sent
    · rw [TSL2561.setTiming_ok s gain it hr hw, if_pos hr]
      simp [Wire.store, Wire.select]
    · rw [TSL2561.setTiming_write_fail s gain it hr hw, if_pos hr]
      simp [Wire.store, Wire.select]
  · rw [TSL2561.setTiming_read_fail s gain it hr, if_neg hr]
    simp [Wire.select]

/-- A round of channel reads only touches the error status, the transaction counter and
the log of the bus, to which it adds read transactions. -/
theorem TSL2561.getData_plain_state (t : TSL2561) (c0 c1 : Nat) :
    ∃ (rest : List BusOp) (e : Nat),
      (t.getData c0 c1 false).2.2.2 =
        { t with _error := e,
                 wire := { t.wire with tick := t.wire.tick + rest.length,
                                       log := t.wire.log ++ rest } } ∧
      ∀ op ∈ rest, ∃ c n, op = BusOp.recv c n := by
  by_cases h0 : (t.wire.nth 0).readOK 2
  · by_cases h1 : (t.wire.nth 1).readOK 2
    · rw [TSL2561.getData_no_switch t c0 c1 false h0 h1 (by simp)]
      refine ⟨[BusOp.recv 0x8C 2, BusOp.recv 0x8E 2], 0, ?_, ?_⟩
      · simp [TSL2561.afterRound, Wire.select]
      · intro op hop
        simp only [List.mem_cons, List.mem_singleton, List.not_mem_nil, or_false] at hop
        rcases hop with rfl | rfl
        · exact ⟨_, _, rfl⟩
        · exact ⟨_, _, rfl⟩
    · have h1' : ¬ ((t.wire.select 0x8C 2).nth 0).readOK 2 := by
        rw [Wire.nth_select]
        exact h1
      rw [TSL2561.getData_plain, TSL2561.readUInt_data0 t c0 h0]
      simp only [if_true]
      rw [TSL2561.readUInt_data1_fail _ c1 h1']
      refine ⟨[BusOp.recv 0x8C 2, BusOp.recv 0x8E 2], u8 (t.wire.nth 1).status, ?_, ?_⟩
      · simp only [Bool.false_eq_true, if_false]
        simp [Wire.select, Wire.nth, Nat.add_assoc]
      · intro op hop
        simp only [List.mem_cons, List.mem_singleton, List.not_mem_nil, or_false] at hop
        rcases hop with rfl | rfl
        · exact ⟨_, _, rfl⟩
        · exact ⟨_, _, rfl⟩
  · rw [TSL2561.getData_plain, TSL2561.readUInt_data0_fail t c0 h0]
    refine ⟨[BusOp.recv 0x8C 2], u8 (t.wire.nth 0).status, ?_, ?_⟩
    · simp only [Bool.false_eq_true, if_false]
      simp [Wire.select, Wire.nth]
    · intro op hop
      simp only [List.mem_singleton] at hop
      exact ⟨_, _, hop⟩

theorem TSL2561.getData_plain_log (t : TSL2561) (c0 c1 : Nat) :
    ∃ rest : List BusOp,
      (t.getData c0 c1 false).2.2.2.wire.log = t.wire.log ++ rest ∧
      ∀ op ∈ rest, ∃ c n, op = BusOp.recv c n := by
  obtain ⟨rest, e, hst, hrest⟩ := TSL2561.getData_plain_state t c0 c1
  exact ⟨rest, by rw [hst], hrest⟩

/-- C8 (counterexample): Fast, Low1x, auto-gain on, both initial channel reads succeed and
channel 0 = 50 is below the low threshold 100, yet `getData` writes no register: the read of
the timing register that opens the gain switch fails, and the gain stays Low1x. -/
theorem getData_switch_without_write :
    (agcNackDemo.wire.nth 0).readOK 2 ∧ (agcNackDemo.wire.nth 1).readOK 2 ∧
    (agcNackDemo.wire.nth 0).word = 50 ∧ agcNackDemo._gain = false ∧ agcNackDemo._it = 0 ∧
    newOps agcNackDemo.wire (agcNackDemo.getData 0 0 true).2.2.2.wire =
      [BusOp.recv 0x8C 2, BusOp.recv 0x8E 2, BusOp.recv 0x81 1,
       BusOp.recv 0x8C 2, BusOp.recv 0x8E 2] ∧
    (agcNackDemo.getData 0 0 true).2.2.2._gain = false := by
  decide

/-- C8 (amended): when both initial channel reads succeed, `getData` starts a gain switch
(calls `setTiming`, whose first transaction reads the timing register) exactly when
auto-gain is on and channel 0 of the first sample is below `lo` at gain Low1x or above `hi`
at gain High16x, with (hi, lo) = (4850, 100) for Fast, (36000, 200) for Medium and
(63000, 500) otherwise; the timing register is written exactly when, in addition, that read
of it succeeds.  In every other case `getData` returns true with the first sample, runs no
transaction beyond the two channel reads and leaves the cached gain and mode unchanged. -/
theorem getData_switch_iff (s : TSL2561) (d0 d1 : Nat) ( autoGain : Bool)
    (h0 : (s.wire.nth 0).readOK 2) (h1 : (s.wire.nth 1).readOK 2) :
    (BusOp.recv 0x81 1 ∈ newOps s.wire (s.getData d0 d1 autoGain).2.2.2.wire ↔
      (autoGain = true ∧
        (((s.wire.nth 0).word < specLo s._it ∧ s._gain = false) ∨
         ((s.wire.nth 0).word > specHi s._it ∧ s._gain = true)))) ∧
    ((∃ b, BusOp.send 0x81 b ∈ newOps s.wire (s.getData d0 d1 autoGain).2.2.2.wire) ↔
      ((autoGain = true ∧
        (((s.wire.nth 0).word < specLo s._it ∧ s._gain = false) ∨
         ((s.wire.nth 0).word > specHi s._it ∧ s._gain = true))) ∧
       (s.wire.nth 2).readOK 1)) ∧
    (¬ (autoGain = true ∧
        (((s.wire.nth 0).word < specLo s._it ∧ s._gain = false) ∨
         ((s.wire.nth 0).word > specHi s._it ∧ s._gain = true))) →
      (s.getData d0 d1 autoGain).1 = true ∧
      (s.getData d0 d1 autoGain).2.1 = (s.wire.nth 0).word ∧
      (s.getData d0 d1 autoGain).2.2.1 = (s.wire.nth 1).word ∧
      newOps s.wire (s.getData d0 d1 autoGain).2.2.2.wire =
        [BusOp.recv 0x8C 2, BusOp.recv 0x8E 2] ∧
      (s.getData d0 d1 autoGain).2.2.2._gain = s._gain ∧
      (s.getData d0 d1 autoGain).2.2.2._it = s._it) := by
  by_cases hc : autoGain = true ∧
      (((s.wire.nth 0).word < specLo s._it ∧ s._gain = false) ∨
       ((s.wire.nth 0).word > specHi s._it ∧ s._gain = true))
  · obtain ⟨ha, hr⟩ := hc
    subst ha
    have hsw := TSL2561.getData_switch s d0 d1 h0 h1 hr
    obtain ⟨rest, hlog, hrest⟩ :=
      TSL2561.getData_plain_log (s.afterRound.setTiming (!s._gain) s._it).2.2
        (s.wire.nth 0).word (s.wire.nth 1).word
    have hn : s.afterRound.wire.nth 0 = s.wire.nth 2 := by
      simp [TSL2561.afterRound, Wire.nth_select]
    rw [TSL2561.setTiming_log, hn] at hlog
    have hnew : newOps s.wire (s.getData d0 d1 true).2.2.2.wire =
        [BusOp.recv 0x8C 2, BusOp.recv 0x8E 2] ++ (BusOp.recv 0x81 1 ::
          if (s.wire.nth 2).readOK 1 then
            [BusOp.send 0x81 (timingByte s.afterRound.wire.timing (!s._gain) s._it)]
          else []) ++ rest := by
      rw [hsw]
      unfold newOps
      rw [hlog]
      have hl : s.afterRound.wire.log = s.wire.log ++ [BusOp.recv 0x8C 2, BusOp.recv 0x8E 2] := by
        simp [TSL2561.afterRound, Wire.select]
      rw [hl, List.append_assoc, List.append_assoc, List.drop_left]
      simp
    rw [hnew]
    refine ⟨⟨fun _ => ⟨rfl, hr⟩, fun _ => by simp⟩, ⟨fun hb => ⟨⟨rfl, hr⟩, ?_⟩, fun hb => ?_⟩,
      fun hneg => absurd ⟨rfl, hr⟩ hneg⟩
    · by_contra hread
      obtain ⟨b, hb⟩ := hb
      rw [if_neg hread] at hb
      simp only [List.mem_append, List.mem_cons, List.mem_singleton, List.not_mem_nil,
        or_false, reduceCtorEq, false_or] at hb
      obtain ⟨c, n, hcn⟩ := hrest _ hb
      exact BusOp.noConfusion hcn
    · rw [if_pos hb.2]
      refine ⟨timingByte s.afterRound.wire.timing (!s._gain) s._it, ?_⟩
      simp
  · have hc' : ¬ (autoGain = true ∧ s.outOfRange (s.wire.nth 0).word) := hc
    rw [TSL2561.getData_no_switch s d0 d1 autoGain h0 h1 hc']
    have hnew : newOps s.wire s.afterRound.wire = [BusOp.recv 0x8C 2, BusOp.recv 0x8E 2] := by
      simp [newOps, TSL2561.afterRound, Wire.select]
    rw [hnew]
    refine ⟨⟨fun h => ?_, fun h => absurd h hc⟩, ⟨fun h => ?_, fun h => absurd h.1 hc⟩,
      fun _ => ⟨rfl, rfl, rfl, rfl, rfl, rfl⟩⟩
    · simp at h
    · obtain ⟨b, hb⟩ := h
      simp at hb

/-- C8 (amended) at Fast, Low1x, first sample (50, 10) without auto-gain: the first sample
is returned and only the two channel reads are run. -/
theorem getData_switch_iff_witness :
    (agcDemo.getData 0 0 false).1 = true ∧
    (agcDemo.getData 0 0 false).2.1 = (agcDemo.wire.nth 0).word ∧
    (agcDemo.getData 0 0 false).2.2.1 = (agcDemo.wire.nth 1).word ∧
    newOps agcDemo.wire (agcDemo.getData 0 0 false).2.2.2.wire =
      [BusOp.recv 0x8C 2, BusOp.recv 0x8E 2] ∧
    (agcDemo.getData 0 0 false).2.2.2._gain = agcDemo._gain ∧
    (agcDemo.getData 0 0 false).2.2.2._it = agcDemo._it :=
  (getData_switch_iff agcDemo 0 0 false (by decide) (by decide)).2.2 (by decide)

/-! ## The cached configuration and the timing register -/

theorem stop_bits (t : Nat) :
    (u8 (u8 t &&& not32 0x08)).testBit 4 = (u8 t).testBit 4 ∧
    u8 (u8 t &&& not32 0x08) % 4 = u8 t % 4 := by
  have h : ∀ t < 256, (u8 (t &&& not32 0x08)).testBit 4 = t.testBit 4 ∧
      u8 (t &&& not32 0x08) % 4 = t % 4 := by
    decide!
  exact h (u8 t) (u8_lt t)

theorem Wire.timing_store (w : Wire) (v : Nat) :
    (w.store 0x81 v).timing = if (w.nth 0).sent then u8 v else w.timing := by
  have h15 : (129 &&& 15 : Nat) = 1 := by decide
  by_cases h : u8 (w.env w.tick).status = 0
  · simp [Wire.timing, Wire.store, Wire.reply, Wire.nth, Reply.sent, h, TSL2561_REG_TIMING,
      h15, u8_u8]
  · simp [Wire.timing, Wire.store, Wire.reply, Wire.nth, Reply.sent, h, TSL2561_REG_TIMING]

/-- `setTiming` with a mode in 0..3 keeps the cached configuration in agreement with the
timing register, whether it succeeds or fails. -/
theorem TSL2561.reflects_setTiming (s : TSL2561) (gain : Bool) (it : Nat) (hit : it ≤ 3)
    (h : s.reflects) : (s.setTiming gain it).2.2.reflects := by
  have hb := timingByte_bits (s.wire.regs TSL2561_REG_TIMING) gain it hit
  by_cases hr : (s.wire.nth 0).readOK 1
  · by_cases hw : (s.wire.nth 1).sent
    · rw [TSL2561.setTiming_ok s gain it hr hw]
      have hw' : ((s.wire.select 0x81 1).nth 0).sent := by
        rw [Wire.nth_select]
        exact hw
      simp only [TSL2561.reflects, Wire.timing_store, if_pos hw', u8_timingByte]
      exact ⟨hb.2.1.symm, hb.2.2.1.symm⟩
    · rw [TSL2561.setTiming_write_fail s gain it hr hw]
      have hw' : ¬ ((s.wire.select 0x81 1).nth 0).sent := by
        rw [Wire.nth_select]
        exact hw
      simp only [TSL2561.reflects, Wire.timing_store, if_neg hw', Wire.timing_select]
      exact h
  · rw [TSL2561.setTiming_read_fail s gain it hr]
    exact h

/-- `manualStop` keeps the cached configuration in agreement with the timing register,
whether it succeeds or fails. -/
theorem TSL2561.reflects_manualStop (s : TSL2561) (h : s.reflects) :
    s.manualStop.2.reflects := by
  have hb := stop_bits (s.wire.regs TSL2561_REG_TIMING)
  unfold TSL2561.manualStop
  by_cases hr : (s.wire.nth 0).readOK 1
  · rw [TSL2561.readByte_ok s _ _ hr]
    simp only [if_true, cmd_timing, Wire.fetch_timing, Wire.u8_timing]
    by_cases hw : ((s.wire.select 0x81 1).nth 0).sent
    · rw [TSL2561.writeByte_ok _ _ _ hw]
      simp only [if_true, cmd_timing, TSL2561.reflects, Wire.timing_store, if_pos hw, u8_u8]
      exact ⟨h.1.trans hb.1.symm, h.2.trans hb.2.symm⟩
    · rw [TSL2561.writeByte_fail _ _ _ hw]
      simp only [Bool.false_eq_true, if_false, cmd_timing, TSL2561.reflects, Wire.timing_store,
        if_neg hw, Wire.timing_select]
      exact h
  · rw [TSL2561.readByte_fail s _ _ hr]
    simp only [Bool.false_eq_true, if_false]
    exact h

/-- `getData` keeps the cached configuration in agreement with the timing register,
with or without auto-gain, whether it succeeds or fails. -/
theorem TSL2561.reflects_getData (s : TSL2561) (d0 d1 : Nat) ( autoGain : Bool)
    (h : s.reflects) : (s.getData d0 d1 autoGain).2.2.2.reflects := by
  have plain : ∀ (t : TSL2561) (c0 c1 : Nat), t.reflects →
      (t.getData c0 c1 false).2.2.2.reflects := by
    intro t c0 c1 ht
    obtain ⟨rest, e, hst, _⟩ := TSL2561.getData_plain_state t c0 c1
    rw [hst]
    exact ht
  have hit : s._it ≤ 3 := by
    have := h.2
    omega
  by_cases h0 : (s.wire.nth 0).readOK 2
  · by_cases h1 : (s.wire.nth 1).readOK 2
    · by_cases hc : autoGain = true ∧ s.outOfRange (s.wire.nth 0).word
      · obtain ⟨ha, hr⟩ := hc
        subst ha
        rw [TSL2561.getData_switch s d0 d1 h0 h1 hr]
        exact plain _ _ _ (TSL2561.reflects_setTiming s.afterRound (!s._gain) s._it hit h)
      · rw [TSL2561.getData_no_switch s d0 d1 autoGain h0 h1 hc]
        exact h
    · have h1' : ¬ ((s.wire.select 0x8C 2).nth 0).readOK 2 := by
        rw [Wire.nth_select]
        exact h1
      unfold TSL2561.getData
      rw [TSL2561.readUInt_data0 s d0 h0]
      simp only [Bool.not_true, Bool.false_eq_true, if_false]
      rw [TSL2561.readUInt_data1_fail _ d1 h1']
      simp only [Bool.not_false, if_true]
      exact h
  · unfold TSL2561.getData
    rw [TSL2561.readUInt_data0_fail s d0 h0]
    simp only [Bool.not_false, if_true]
    exact h

/-- C7 (evaluation at the failing input): cached gain Low1x and mode Medium agree with the
timing register `0x01`; `manualStart` succeeds and leaves the register at `0x0B` (mode bits
3) while the cached mode is still 1, so the cached configuration no longer reflects the
register. -/
theorem manualStart_breaks_reflects :
    manualDemo.reflects ∧ manualDemo.manualStart.1 = true ∧
    manualDemo.manualStart.2.wire.timing = 0x0B ∧ manualDemo.manualStart.2._it = 1 ∧
    ¬ manualDemo.manualStart.2.reflects := by
  decide


/-! ## Failed channel reads -/

/-- A round of channel reads whose first read fails: nothing is stored in the outputs. -/
theorem TSL2561.getData_plain_fail0 (t : TSL2561) (c0 c1 : Nat) ( autoGain : Bool)
    (h0 : ¬ (t.wire.nth 0).readOK 2) :
    t.getData c0 c1 autoGain =
      (false, c0, c1, { t with _error := u8 (t.wire.nth 0).status,
                               wire := t.wire.select 0x8C 2 }) := by
  unfold TSL2561.getData
  rw [TSL2561.readUInt_data0_fail t c0 h0]
  simp only [Bool.not_false, if_true]

/-- A round of channel reads whose second read fails: channel 0 is already stored. -/
theorem TSL2561.getData_plain_fail1 (t : TSL2561) (c0 c1 : Nat) ( autoGain : Bool)
    (h0 : (t.wire.nth 0).readOK 2) (h1 : ¬ (t.wire.nth 1).readOK 2) :
    t.getData c0 c1 autoGain =
      (false, (t.wire.nth 0).word, c1,
        { t with _error := u8 (t.wire.nth 1).status,
                 wire := (t.wire.select 0x8C 2).select 0x8E 2 }) := by
  have h1' : ¬ ((t.wire.select 0x8C 2).nth 0).readOK 2 := by
    rw [Wire.nth_select]
    exact h1
  unfold TSL2561.getData
  rw [TSL2561.readUInt_data0 t c0 h0]
  simp only [Bool.not_true, Bool.false_eq_true, if_false]
  rw [TSL2561.readUInt_data1_fail _ c1 h1']
  simp only [Bool.not_false, if_true, Wire.nth_select]

/-- The object after a gain switch that succeeded on the bus. -/
theorem TSL2561.setTiming_afterRound (s : TSL2561) (gain : Bool)
    (h2 : (s.wire.nth 2).readOK 1) (h3 : (s.wire.nth 3).sent) :
    (s.afterRound.setTiming gain s._it).2.2 =
      { s with _error := 0, _gain := gain,
               wire := (s.afterRound.wire.select 0x81 1).store 0x81
                 (timingByte s.wire.timing gain s._it) } := by
  have e2 : (s.afterRound.wire.nth 0).readOK 1 := by
    simpa [TSL2561.afterRound, Wire.nth_select] using h2
  have e3 : (s.afterRound.wire.nth 1).sent := by
    simpa [TSL2561.afterRound, Wire.nth_select] using h3
  rw [TSL2561.setTiming_ok _ _ _ e2 e3]
  simp only [TSL2561.afterRound, Wire.timing_select]

theorem TSL2561.nth_after_switch (s : TSL2561) (gain : Bool) (k : Nat) :
    ((s.afterRound.wire.select 0x81 1).store 0x81 (timingByte s.wire.timing gain s._it)).nth k =
      s.wire.nth (k + 4) := by
  simp only [TSL2561.afterRound, Wire.nth_select, Wire.nth_store]

/-- C11: with auto-gain, cached gain Low1x and channel 0 of the first sample below the low
threshold, when the gain switch succeeds on the bus and one of the two channel reads after
it fails, `getData` returns false; the timing register has been written exactly once, with
the gain bit set, the cached gain is High16x and the cached mode is the one before the
call. -/
theorem getData_reread_fails (s : TSL2561) (d0 d1 : Nat)
    (h0 : (s.wire.nth 0).readOK 2) (h1 : (s.wire.nth 1).readOK 2)
    (hlo : (s.wire.nth 0).word < specLo s._it) (hg : s._gain = false)
    (h2 : (s.wire.nth 2).readOK 1) (h3 : (s.wire.nth 3).sent)
    (hre : ¬ (s.wire.nth 4).readOK 2 ∨ ¬ (s.wire.nth 5).readOK 2) :
    (s.getData d0 d1 true).1 = false ∧
    (s.getData d0 d1 true).2.2.2._gain = true ∧
    (s.getData d0 d1 true).2.2.2._it = s._it ∧
    ∃ (b : Nat) (rest : List BusOp),
      newOps s.wire (s.getData d0 d1 true).2.2.2.wire =
        [BusOp.recv 0x8C 2, BusOp.recv 0x8E 2, BusOp.recv 0x81 1, BusOp.send 0x81 b] ++ rest ∧
      b.testBit 4 = true ∧
      (rest = [BusOp.recv 0x8C 2] ∨ rest = [BusOp.recv 0x8C 2, BusOp.recv 0x8E 2]) := by
  have hc : s.outOfRange (s.wire.nth 0).word := Or.inl ⟨hlo, hg⟩
  have hb : (timingByte s.wire.timing true s._it).testBit 4 = true := by
    have h : ∀ t < 256, ∀ m < 4, (timingByte t true m).testBit 4 = true := by decide!
    have e : timingByte s.wire.timing true s._it = timingByte s.wire.timing true (s._it % 4) := by
      have h3 : ∀ m : Nat, m &&& 3 = (m % 4) &&& 3 := by
        intro m
        have : (3 : Nat) = 2 ^ 2 - 1 := by norm_num
        rw [this, Nat.and_pow_two_sub_one_eq_mod, Nat.and_pow_two_sub_one_eq_mod]
        norm_num
      unfold timingByte
      rw [h3]
    rw [e]
    exact h _ (u8_lt _) _ (Nat.mod_lt _ (by norm_num))
  rw [TSL2561.getData_switch s d0 d1 h0 h1 hc, hg, Bool.not_false,
    TSL2561.setTiming_afterRound s true h2 h3]
  by_cases h4 : (s.wire.nth 4).readOK 2
  · have h5 : ¬ (s.wire.nth 5).readOK 2 := by
      rcases hre with h | h
      · exact absurd h4 h
      · exact h
    rw [TSL2561.getData_plain_fail1 _ _ _ false
      (by simpa [TSL2561.nth_after_switch] using h4)
      (by simpa [TSL2561.nth_after_switch] using h5)]
    refine ⟨rfl, rfl, rfl, timingByte s.wire.timing true s._it,
      [BusOp.recv 0x8C 2, BusOp.recv 0x8E 2], ?_, hb, Or.inr rfl⟩
    simp [newOps, TSL2561.afterRound, Wire.select, Wire.store]
  · rw [TSL2561.getData_plain_fail0 _ _ _ false
      (by simpa [TSL2561.nth_after_switch] using h4)]
    refine ⟨rfl, rfl, rfl, timingByte s.wire.timing true s._it,
      [BusOp.recv 0x8C 2], ?_, hb, Or.inl rfl⟩
    simp [newOps, TSL2561.afterRound, Wire.select, Wire.store]

/-- C11 at Fast, Low1x, first sample (50, 10): the switch to High16x succeeds, the second
read of channel 1 fails, `getData` returns false with the cached gain High16x. -/
theorem getData_reread_fails_witness :
    (agcRereadDemo.getData 0 0 true).1 = false ∧
    (agcRereadDemo.getData 0 0 true).2.2.2._gain = true ∧
    (agcRereadDemo.getData 0 0 true).2.2.2._it = agcRereadDemo._it ∧
    ∃ (b : Nat) (rest : List BusOp),
      newOps agcRereadDemo.wire (agcRereadDemo.getData 0 0 true).2.2.2.wire =
        [BusOp.recv 0x8C 2, BusOp.recv 0x8E 2, BusOp.recv 0x81 1, BusOp.send 0x81 b] ++ rest ∧
      b.testBit 4 = true ∧
      (rest = [BusOp.recv 0x8C 2] ∨ rest = [BusOp.recv 0x8C 2, BusOp.recv 0x8E 2]) :=
  getData_reread_fails agcRereadDemo 0 0 (by decide) (by decide) (by decide) (by decide)
    (by decide) (by decide) (Or.inr (by decide))

/-- The replies that follow a call of `setTiming`: it has run one transaction when its read
of the timing register failed, two otherwise. -/
theorem TSL2561.setTiming_nth (s : TSL2561) (gain : Bool) (it j : Nat) :
    (s.setTiming gain it).2.2.wire.nth j =
      s.wire.nth (j + if (s.wire.nth 0).readOK 1 then 2 else 1) := by
  by_cases hr : (s.wire.nth 0).readOK 1
  · by_cases hw : (s.wire.nth 1).sent
    · rw [TSL2561.setTiming_ok s gain it hr hw, if_pos hr]
      simp only [Wire.nth_store, Wire.nth_select]
    · rw [TSL2561.setTiming_write_fail s gain it hr hw, if_pos hr]
      simp only [Wire.nth_store, Wire.nth_select]
  · rw [TSL2561.setTiming_read_fail s gain it hr, if_neg hr]
    simp only [Wire.nth_select]

/-- C12 (counterexample): the caller holds data0 = 7 and data1 = 9; the read of channel 0
succeeds with 50 and the read of channel 1 fails; `getData` returns false and data0 is 50,
not the value it had before the call. -/
theorem getData_partial_sample :
    (partialDemo.wire.nth 0).readOK 2 ∧ ¬ (partialDemo.wire.nth 1).readOK 2 ∧
    (partialDemo.getData 7 9 false).1 = false ∧
    (partialDemo.getData 7 9 false).2.1 = 50 ∧
    (partialDemo.getData 7 9 false).2.2.1 = 9 ∧
    (partialDemo.getData 7 9 true).2.1 = 50 := by
  decide

/-- C12 (amended): a failed channel read makes `getData` return false, and each output holds
what the reads before the failure have stored in it.  First round: if the read of channel 0
fails, data0 and data1 hold the values they had before the call; if it succeeds and the read
of channel 1 fails, data0 holds the value just read and data1 the value it had before the
call.  Second round (after a gain switch, which has run one transaction when its read of the
timing register failed and two otherwise): if the read of channel 0 fails, the outputs hold
the first sample; if it succeeds and the read of channel 1 fails, data0 holds the value just
read and data1 the channel 1 value of the first sample. -/
theorem getData_failed_read (s : TSL2561) (d0 d1 : Nat) ( autoGain : Bool) :
    (¬ (s.wire.nth 0).readOK 2 →
      (s.getData d0 d1 autoGain).1 = false ∧
      (s.getData d0 d1 autoGain).2.1 = d0 ∧ (s.getData d0 d1 autoGain).2.2.1 = d1) ∧
    ((s.wire.nth 0).readOK 2 → ¬ (s.wire.nth 1).readOK 2 →
      (s.getData d0 d1 autoGain).1 = false ∧
      (s.getData d0 d1 autoGain).2.1 = (s.wire.nth 0).word ∧
      (s.getData d0 d1 autoGain).2.2.1 = d1) ∧
    ((s.wire.nth 0).readOK 2 → (s.wire.nth 1).readOK 2 → autoGain = true →
      (((s.wire.nth 0).word < specLo s._it ∧ s._gain = false) ∨
       ((s.wire.nth 0).word > specHi s._it ∧ s._gain = true)) →
      (¬ (s.wire.nth (if (s.wire.nth 2).readOK 1 then 4 else 3)).readOK 2 →
        (s.getData d0 d1 autoGain).1 = false ∧
        (s.getData d0 d1 autoGain).2.1 = (s.wire.nth 0).word ∧
        (s.getData d0 d1 autoGain).2.2.1 = (s.wire.nth 1).word) ∧
      ((s.wire.nth (if (s.wire.nth 2).readOK 1 then 4 else 3)).readOK 2 →
       ¬ (s.wire.nth (if (s.wire.nth 2).readOK 1 then 5 else 4)).readOK 2 →
        (s.getData d0 d1 autoGain).1 = false ∧
        (s.getData d0 d1 autoGain).2.1 =
          (s.wire.nth (if (s.wire.nth 2).readOK 1 then 4 else 3)).word ∧
        (s.getData d0 d1 autoGain).2.2.1 = (s.wire.nth 1).word)) := by
  refine ⟨fun h0 => ?_, fun h0 h1 => ?_, fun h0 h1 ha hc => ?_⟩
  · rw [TSL2561.getData_plain_fail0 s d0 d1 autoGain h0]
    exact ⟨rfl, rfl, rfl⟩
  · rw [TSL2561.getData_plain_fail1 s d0 d1 autoGain h0 h1]
    exact ⟨rfl, rfl, rfl⟩
  · subst ha
    have hn : ∀ j, (s.afterRound.setTiming (!s._gain) s._it).2.2.wire.nth j =
        s.wire.nth (if (s.wire.nth 2).readOK 1 then j + 4 else j + 3) := by
      intro j
      have e : s.afterRound.wire.nth 0 = s.wire.nth 2 := by
        simp [TSL2561.afterRound, Wire.nth_select]
      rw [TSL2561.setTiming_nth, e]
      by_cases hr : (s.wire.nth 2).readOK 1
      · simp only [if_pos hr, TSL2561.afterRound, Wire.nth_select]
      · simp only [if_neg hr, TSL2561.afterRound, Wire.nth_select]
    have hn0 := hn 0
    have hn1 := hn 1
    simp only [Nat.zero_add] at hn0
    have e4 : (if (s.wire.nth 2).readOK 1 then 1 + 4 else 1 + 3) =
        (if (s.wire.nth 2).readOK 1 then 5 else 4) := by
      split_ifs <;> rfl
    rw [e4] at hn1
    rw [TSL2561.getData_switch s d0 d1 h0 h1 hc]
    refine ⟨fun h4 => ?_, fun h4 h5 => ?_⟩
    · rw [TSL2561.getData_plain_fail0 _ _ _ false (by rw [hn0]; exact h4)]
      exact ⟨rfl, rfl, rfl⟩
    · rw [TSL2561.getData_plain_fail1 _ _ _ false (by rw [hn0]; exact h4)
        (by rw [hn1]; exact h5), hn0]
      exact ⟨rfl, rfl, rfl⟩

/-- C12 (amended) at a first read of channel 0 that succeeds with 50 and a read of channel 1
that fails, prior outputs 7 and 9: false is returned with data0 = 50 and data1 = 9. -/
theorem getData_failed_read_witness :
    (partialDemo.getData 7 9 false).1 = false ∧
    (partialDemo.getData 7 9 false).2.1 = (partialDemo.wire.nth 0).word ∧
    (partialDemo.getData 7 9 false).2.2.1 = 9 :=
  (getData_failed_read partialDemo 7 9 false).2.1 (by decide) (by decide)

/-! ## The floating-point conversion read over the real numbers

`TSL2561.getLux Real.rpow` is `getLux` with `double` read as the real numbers and `pow` as
the real power function. -/

theorem rpow_seven_fifths (r : ℝ) (hr : 0 ≤ r) : (Real.rpow r 1.4) ^ 5 = r ^ 7 := by
  show (r ^ (1.4 : ℝ)) ^ 5 = r ^ 7
  rw [← Real.rpow_natCast, ← Real.rpow_mul hr]
  have e : (1.4 : ℝ) * ((5 : ℕ) : ℝ) = ((7 : ℕ) : ℝ) := by norm_num
  rw [e, Real.rpow_natCast]

theorem rpow_lower (r lo : ℝ) (hr : 0 ≤ r) (h : lo ^ 5 < r ^ 7) : lo < Real.rpow r 1.4 := by
  have hx : 0 ≤ Real.rpow r 1.4 := Real.rpow_nonneg hr _
  rw [← rpow_seven_fifths r hr] at h
  exact lt_of_pow_lt_pow_left₀ 5 hx h

theorem rpow_upper (r hi : ℝ) (hr : 0 ≤ r) (hhi : 0 ≤ hi) (h : r ^ 7 < hi ^ 5) :
    Real.rpow r 1.4 < hi := by
  rw [← rpow_seven_fifths r hr] at h
  exact lt_of_pow_lt_pow_left₀ 5 hhi h

/-- The scenario ms = 402, gain High16x, CH0 = 100, CH1 = 30 run on the code. -/
theorem getLux_scenario (s : TSL2561) (h : s._gain = true) :
    TSL2561.getLux Real.rpow s 402 100 30 =
      (true, 0.0304 * 100 - 0.062 * 100 * Real.rpow 0.30 1.4) := by
  unfold TSL2561.getLux
  norm_num [h]

theorem scenario_bounds :
    (1.885 : ℝ) < 0.0304 * 100 - 0.062 * 100 * Real.rpow 0.30 1.4 ∧
    (0.0304 : ℝ) * 100 - 0.062 * 100 * Real.rpow 0.30 1.4 < 1.895 := by
  have hlo := rpow_lower 0.30 0.18468 (by norm_num) (by norm_num)
  have hhi := rpow_upper 0.30 0.18629 (by norm_num) (by norm_num) (by norm_num)
  constructor
  · linarith
  · linarith

/-- C14 (counterexample): for ms = 402, gain High16x, CH0 = 100 and CH1 = 30 the lux that
`getLux` sets, read over the real numbers, is above 1.885, so it is not 1.82 to two decimal
places (it is not below 1.825). -/
theorem getLux_scenario_not_1_82 :
    1.885 < (TSL2561.getLux Real.rpow (TSL2561.sample true 2) 402 100 30).2 ∧
    ¬ ((TSL2561.getLux Real.rpow (TSL2561.sample true 2) 402 100 30).2 < 1.825) := by
  rw [getLux_scenario (TSL2561.sample true 2) rfl]
  have h := scenario_bounds.1
  constructor
  · exact h
  · intro hlt
    have h2 : (0.0304 : ℝ) * 100 - 0.062 * 100 * Real.rpow 0.30 1.4 < 1.825 := hlt
    linarith

/-- C14 (amended): for ms = 402, gain High16x, CH0 = 100 and CH1 = 30, `getLux` returns
true, the ratio is 0.30 and below 0.50, and lux is set to
0.0304*100 - 0.062*100*0.30^1.4 (read over the real numbers), a value that is 1.89 to two
decimal places. -/
theorem getLux_scenario_value (s : TSL2561) (h : s._gain = true) :
    TSL2561.getLux Real.rpow s 402 100 30 =
      (true, 0.0304 * 100 - 0.062 * 100 * Real.rpow 0.30 1.4) ∧
    ((30 : ℕ) : ℝ) / ((100 : ℕ) : ℝ) = 0.30 ∧ (0.30 : ℝ) < 0.50 ∧
    (1.885 : ℝ) ≤ (TSL2561.getLux Real.rpow s 402 100 30).2 ∧
    (TSL2561.getLux Real.rpow s 402 100 30).2 < 1.895 := by
  rw [getLux_scenario s h]
  exact ⟨rfl, by norm_num, by norm_num, le_of_lt scenario_bounds.1, scenario_bounds.2⟩

/-- C14 (amended) on a driver object with gain High16x. -/
theorem getLux_scenario_value_witness :
    TSL2561.getLux Real.rpow (TSL2561.sample true 2) 402 100 30 =
      (true, 0.0304 * 100 - 0.062 * 100 * Real.rpow 0.30 1.4) ∧
    ((30 : ℕ) : ℝ) / ((100 : ℕ) : ℝ) = 0.30 ∧ (0.30 : ℝ) < 0.50 ∧
    (1.885 : ℝ) ≤ (TSL2561.getLux Real.rpow (TSL2561.sample true 2) 402 100 30).2 ∧
    (TSL2561.getLux Real.rpow (TSL2561.sample true 2) 402 100 30).2 < 1.895 :=
  getLux_scenario_value (TSL2561.sample true 2) rfl

/-- The body of `getLux` once the saturation test has failed and the ratio is known. -/
theorem getLux_of_ratio (s : TSL2561) (ms CH0 CH1 : Nat) (r : ℝ)
    (h0 : CH0 ≠ 0xFFFF) (h1 : CH1 ≠ 0xFFFF) (hr : (CH1 : ℝ) / (CH0 : ℝ) = r) :
    TSL2561.getLux Real.rpow s ms CH0 CH1 =
      if r < 0.5 then
        (true, 0.0304 * (if s._gain = true then (CH0 : ℝ) * (402.0 / (ms : ℝ))
            else (CH0 : ℝ) * (402.0 / (ms : ℝ)) * ((16 : ℕ) : ℝ))
          - 0.062 * (if s._gain = true then (CH0 : ℝ) * (402.0 / (ms : ℝ))
            else (CH0 : ℝ) * (402.0 / (ms : ℝ)) * ((16 : ℕ) : ℝ)) * Real.rpow r 1.4)
      else if r < 0.61 then
        (true, 0.0224 * (if s._gain = true then (CH0 : ℝ) * (402.0 / (ms : ℝ))
            else (CH0 : ℝ) * (402.0 / (ms : ℝ)) * ((16 : ℕ) : ℝ))
          - 0.031 * (if s._gain = true then (CH1 : ℝ) * (402.0 / (ms : ℝ))
            else (CH1 : ℝ) * (402.0 / (ms : ℝ)) * ((16 : ℕ) : ℝ)))
      else if r < 0.80 then
        (true, 0.0128 * (if s._gain = true then (CH0 : ℝ) * (402.0 / (ms : ℝ))
            else (CH0 : ℝ) * (402.0 / (ms : ℝ)) * ((16 : ℕ) : ℝ))
          - 0.0153 * (if s._gain = true then (CH1 : ℝ) * (402.0 / (ms : ℝ))
            else (CH1 : ℝ) * (402.0 / (ms : ℝ)) * ((16 : ℕ) : ℝ)))
      else if r < 1.30 then
        (true, 0.00146 * (if s._gain = true then (CH0 : ℝ) * (402.0 / (ms : ℝ))
            else (CH0 : ℝ) * (402.0 / (ms : ℝ)) * ((16 : ℕ) : ℝ))
          - 0.00112 * (if s._gain = true then (CH1 : ℝ) * (402.0 / (ms : ℝ))
            else (CH1 : ℝ) * (402.0 / (ms : ℝ)) * ((16 : ℕ) : ℝ)))
      else (true, 0.0) := by
  have hs : ¬ (CH0 = 0xFFFF ∨ CH1 = 0xFFFF) := by
    intro h
    rcases h with h | h
    · exact h0 h
    · exact h1 h
  unfold TSL2561.getLux
  rw [if_neg hs]
  simp only [hr]
  cases s._gain <;> simp

/-- C15: `getLux`, read over the real numbers, selects its formula with strict comparisons:
for a non-saturated input whose ratio CH1/CH0 is exactly 0.50, 0.61, 0.80 or 1.30 (which
forces CH0 > 0) the result is that of the next branch, 0.0224*d0 - 0.031*d1,
0.0128*d0 - 0.0153*d1, 0.00146*d0 - 0.00112*d1 and 0 respectively, where d0 and d1 are the
raw values multiplied by 402/ms, and by 16 when the gain is Low1x. -/
theorem getLux_boundary (s : TSL2561) (ms CH0 CH1 : Nat)
    (h0 : CH0 ≠ 0xFFFF) (h1 : CH1 ≠ 0xFFFF) :
    ((CH1 : ℝ) / (CH0 : ℝ) = 0.50 →
      TSL2561.getLux Real.rpow s ms CH0 CH1 =
        (true, 0.0224 * ((CH0 : ℝ) * (402 / (ms : ℝ)) * (if s._gain = true then 1 else 16))
             - 0.031 * ((CH1 : ℝ) * (402 / (ms : ℝ)) * (if s._gain = true then 1 else 16)))) ∧
    ((CH1 : ℝ) / (CH0 : ℝ) = 0.61 →
      TSL2561.getLux Real.rpow s ms CH0 CH1 =
        (true, 0.0128 * ((CH0 : ℝ) * (402 / (ms : ℝ)) * (if s._gain = true then 1 else 16))
             - 0.0153 * ((CH1 : ℝ) * (402 / (ms : ℝ)) * (if s._gain = true then 1 else 16)))) ∧
    ((CH1 : ℝ) / (CH0 : ℝ) = 0.80 →
      TSL2561.getLux Real.rpow s ms CH0 CH1 =
        (true, 0.00146 * ((CH0 : ℝ) * (402 / (ms : ℝ)) * (if s._gain = true then 1 else 16))
             - 0.00112 * ((CH1 : ℝ) * (402 / (ms : ℝ)) * (if s._gain = true then 1 else 16)))) ∧
    ((CH1 : ℝ) / (CH0 : ℝ) = 1.30 →
      TSL2561.getLux Real.rpow s ms CH0 CH1 = (true, 0)) := by
  refine ⟨fun hr => ?_, fun hr => ?_, fun hr => ?_, fun hr => ?_⟩
  · rw [getLux_of_ratio s ms CH0 CH1 _ h0 h1 hr]
    cases s._gain <;> norm_num
  · rw [getLux_of_ratio s ms CH0 CH1 _ h0 h1 hr]
    cases s._gain <;> norm_num
  · rw [getLux_of_ratio s ms CH0 CH1 _ h0 h1 hr]
    cases s._gain <;> norm_num
  · rw [getLux_of_ratio s ms CH0 CH1 _ h0 h1 hr]
    norm_num

/-- C15 at ms = 402, gain High16x, CH0 = 100, CH1 = 50 (ratio exactly 0.50): the formula of
the branch 0.50 <= ratio < 0.61 is used. -/
theorem getLux_boundary_witness :
    TSL2561.getLux Real.rpow (TSL2561.sample true 2) 402 100 50 =
      (true, 0.0224 * (((100 : ℕ) : ℝ) * (402 / ((402 : ℕ) : ℝ)) *
                (if (TSL2561.sample true 2)._gain = true then 1 else 16))
           - 0.031 * (((50 : ℕ) : ℝ) * (402 / ((402 : ℕ) : ℝ)) *
                (if (TSL2561.sample true 2)._gain = true then 1 else 16))) :=
  (getLux_boundary (TSL2561.sample true 2) 402 100 50 (by decide) (by decide)).1 (by norm_num)

/-- On every branch of the table the lux is non-negative, for a ratio `r >= 0` and channel
values `d0 >= 0` and `d1 = r * d0`. -/
theorem lux_table_nonneg (r d0 d1 : ℝ) (hr : 0 ≤ r) (hd0 : 0 ≤ d0) (hrel : 0.5 ≤ r → d1 = r * d0) :
    0 ≤ (if r < 0.5 then ((true, 0.0304 * d0 - 0.062 * d0 * Real.rpow r 1.4) : Bool × ℝ)
      else if r < 0.61 then (true, 0.0224 * d0 - 0.031 * d1)
      else if r < 0.80 then (true, 0.0128 * d0 - 0.0153 * d1)
      else if r < 1.30 then (true, 0.00146 * d0 - 0.00112 * d1)
      else (true, 0.0)).2 := by
  by_cases h1 : r < 0.5
  · rw [if_pos h1]
    have hx : Real.rpow r 1.4 ≤ Real.rpow 0.5 1.4 :=
      Real.rpow_le_rpow hr (le_of_lt h1) (by norm_num)
    have hy : Real.rpow 0.5 1.4 < 0.49 :=
      rpow_upper 0.5 0.49 (by norm_num) (by norm_num) (by norm_num)
    have hz : 0 ≤ 0.0304 - 0.062 * Real.rpow r 1.4 := by linarith
    have := mul_nonneg hd0 hz
    show 0 ≤ 0.0304 * d0 - 0.062 * d0 * Real.rpow r 1.4
    linarith
  · rw [if_neg h1]
    have h5 : (0.5 : ℝ) ≤ r := not_lt.mp h1
    have hd1 := hrel h5
    by_cases h2 : r < 0.61
    · rw [if_pos h2]
      show 0 ≤ 0.0224 * d0 - 0.031 * d1
      rw [hd1]
      nlinarith [mul_nonneg hd0 (show (0 : ℝ) ≤ 0.61 - r by linarith)]
    · rw [if_neg h2]
      by_cases h3 : r < 0.80
      · rw [if_pos h3]
        show 0 ≤ 0.0128 * d0 - 0.0153 * d1
        rw [hd1]
        nlinarith [mul_nonneg hd0 (show (0 : ℝ) ≤ 0.80 - r by linarith)]
      · rw [if_neg h3]
        by_cases h4 : r < 1.30
        · rw [if_pos h4]
          show 0 ≤ 0.00146 * d0 - 0.00112 * d1
          rw [hd1]
          nlinarith [mul_nonneg hd0 (show (0 : ℝ) ≤ 1.30 - r by linarith)]
        · rw [if_neg h4]
          show (0 : ℝ) ≤ 0.0
          norm_num

/-- C17: for every ms > 0, every gain and every raw pair CH0, CH1 < 0xFFFF, the lux that
`getLux` produces, read over the real numbers, is not negative. -/
theorem getLux_nonneg (s : TSL2561) (ms CH0 CH1 : Nat) (hms : 0 < ms)
    (h0 : CH0 < 0xFFFF) (h1 : CH1 < 0xFFFF) :
    0 ≤ (TSL2561.getLux Real.rpow s ms CH0 CH1).2 := by
  have hk : (0 : ℝ) ≤ 402.0 / (ms : ℝ) := by
    have : (0 : ℝ) < (ms : ℝ) := by exact_mod_cast hms
    positivity
  have hr : (0 : ℝ) ≤ (CH1 : ℝ) / (CH0 : ℝ) := by positivity
  have hc0 : (0.5 : ℝ) ≤ (CH1 : ℝ) / (CH0 : ℝ) → (CH0 : ℝ) ≠ 0 := by
    intro h hz
    rw [hz, div_zero] at h
    norm_num at h
  rw [getLux_of_ratio s ms CH0 CH1 _ (by omega) (by omega) rfl]
  cases s._gain
  · simp only [Bool.false_eq_true, if_false]
    refine lux_table_nonneg _ _ _ hr (by positivity) (fun h => ?_)
    have := hc0 h
    field_simp
    ring
  · simp only [if_true]
    refine lux_table_nonneg _ _ _ hr (by positivity) (fun h => ?_)
    have := hc0 h
    field_simp
    ring

/-- C17 at ms = 101, gain Low1x, CH0 = 1000, CH1 = 1290. -/
theorem getLux_nonneg_witness :
    0 ≤ (TSL2561.getLux Real.rpow (TSL2561.sample false 1) 101 1000 1290).2 :=
  getLux_nonneg (TSL2561.sample false 1) 101 1000 1290 (by decide) (by decide) (by decide)

/-- C16: over any arithmetic of `double` in which the division of CH1 by zero yields a
value that is below nothing (in IEEE arithmetic: an infinity for CH1 > 0, a NaN for
CH1 = 0), `getLux` with CH0 = 0 and CH1 < 0xFFFF returns true with lux = 0.0, for every ms
and every gain: the four comparisons fail and the last assignment is reached. -/
theorem getLux_zero_channel0 {α : Type} [OfScientific α] [NatCast α] [Mul α] [Div α] [Sub α]
    [LT α] [DecidableRel (fun a b : α => a < b)] (pow : α → α → α) (s : TSL2561)
    (ms CH1 : Nat) (h1 : CH1 < 0xFFFF)
    (hdiv : ∀ c : α, ¬ ((CH1 : α) / ((0 : Nat) : α) < c)) :
    TSL2561.getLux pow s ms 0 CH1 = (true, (0.0 : α)) := by
  have hs : ¬ ((0 : Nat) = 0xFFFF ∨ CH1 = 0xFFFF) := by omega
  unfold TSL2561.getLux
  rw [if_neg hs]
  simp only [if_neg (hdiv _)]

/-- C16 at ms = 402, gain High16x, CH1 = 30, in the rational arithmetic with a non-number. -/
theorem getLux_zero_channel0_witness :
    TSL2561.getLux ExtRat.pow (TSL2561.sample true 2) 402 0 30 = (true, (0.0 : ExtRat)) :=
  getLux_zero_channel0 ExtRat.pow (TSL2561.sample true 2) 402 30 (by decide)
    (fun c h => by cases c <;> exact h)

/-- With `double` read as the real numbers, where a division by zero is 0 by convention,
`getLux` with CH0 = 0 also yields the lux 0, through the first branch. -/
theorem getLux_real_channel0 (s : TSL2561) (ms CH1 : Nat) (h1 : CH1 ≠ 0xFFFF) :
    TSL2561.getLux Real.rpow s ms 0 CH1 = (true, 0) := by
  rw [getLux_of_ratio s ms 0 CH1 0 (by decide) h1 (by simp)]
  cases s._gain <;> norm_num

/-! ## The two conversions side by side -/

/-- Agreement within 2% from the value of each conversion. -/
theorem agreeWithin2_of (s : TSL2561) (ms CH0 CH1 n : Nat) (F : ℝ)
    (hI : s.getLuxInt CH0 CH1 = (true, n))
    (hF : TSL2561.getLux Real.rpow s ms CH0 CH1 = (true, F))
    (h : (n : ℝ) - F ≤ 0.02 * F ∧ F - (n : ℝ) ≤ 0.02 * F) :
    agreeWithin2 s ms CH0 CH1 := by
  unfold agreeWithin2
  rw [hI, hF]
  show |(n : ℝ) - F| ≤ 0.02 * F
  rw [abs_le]
  constructor <;> linarith [h.1, h.2]

/-- Agreement within 2% for Long mode, gain High16x, CH0 = 10000 and a ratio below 0.50,
from bounds on the power `ratio^1.4`. -/
theorem agreeWithin2_pow (CH1 n : Nat) (r lo hi : ℝ)
    (h1 : CH1 ≠ 0xFFFF) (hr : ((CH1 : ℕ) : ℝ) / ((10000 : ℕ) : ℝ) = r) (hr0 : 0 ≤ r)
    (hr5 : r < 0.5) (hI : (TSL2561.sample true 2).getLuxInt 10000 CH1 = (true, n))
    (hlo : lo ^ 5 < r ^ 7) (hhi : r ^ 7 < hi ^ 5) (hhi0 : 0 ≤ hi)
    (hn1 : (n : ℝ) ≤ 1.02 * (304 - 620 * hi)) (hn2 : 0.98 * (304 - 620 * lo) ≤ (n : ℝ)) :
    agreeWithin2 (TSL2561.sample true 2) 402 10000 CH1 := by
  have hx1 := rpow_lower r lo hr0 hlo
  have hx2 := rpow_upper r hi hr0 hhi0 hhi
  refine agreeWithin2_of _ _ _ _ n (304 - 620 * Real.rpow r 1.4) hI ?_ ?_
  · rw [getLux_of_ratio _ 402 10000 CH1 r (by decide) h1 hr, if_pos hr5]
    have hg : (TSL2561.sample true 2)._gain = true := rfl
    simp only [hg, if_true]
    norm_num
  · constructor <;> linarith

/-- C13 (evaluation at the failing inputs): with identical inputs the two conversions differ
by more than 2%.  Long mode (ms = 402), gain Low1x, CH0 = 40000, CH1 = 51600: the integer
lux is 30 and the real-number lux is 9.728.  Long mode, gain High16x, CH0 = CH1 = 10000:
4 against 3.4.  Fast mode (ms = 14), gain Low1x, CH0 = 4900, CH1 = 3430: 4805 against
4705.008. -/
theorem lux_conversions_disagree :
    (TSL2561.sample true 2).getLuxInt 10000 10000 = (true, 4) ∧
    TSL2561.getLux Real.rpow (TSL2561.sample true 2) 402 10000 10000 = (true, 3.4) ∧
    ¬ agreeWithin2 (TSL2561.sample true 2) 402 10000 10000 ∧
    (TSL2561.sample false 2).getLuxInt 40000 51600 = (true, 30) ∧
    TSL2561.getLux Real.rpow (TSL2561.sample false 2) 402 40000 51600 = (true, 9.728) ∧
    ¬ agreeWithin2 (TSL2561.sample false 2) 402 40000 51600 ∧
    (TSL2561.sample false 0).getLuxInt 4900 3430 = (true, 4805) ∧
    TSL2561.getLux Real.rpow (TSL2561.sample false 0) 14 4900 3430 = (true, 4705.008) ∧
    ¬ agreeWithin2 (TSL2561.sample false 0) 14 4900 3430 := by
  have hI1 : (TSL2561.sample true 2).getLuxInt 10000 10000 = (true, 4) := by rfl
  have hI2 : (TSL2561.sample false 2).getLuxInt 40000 51600 = (true, 30) := by rfl
  have hI3 : (TSL2561.sample false 0).getLuxInt 4900 3430 = (true, 4805) := by rfl
  have hF1 : TSL2561.getLux Real.rpow (TSL2561.sample true 2) 402 10000 10000 = (true, 3.4) := by
    rw [getLux_of_ratio _ 402 10000 10000 1 (by decide) (by decide) (by norm_num)]
    have hg : (TSL2561.sample true 2)._gain = true := rfl
    simp only [hg, if_true]
    norm_num
  have hF2 : TSL2561.getLux Real.rpow (TSL2561.sample false 2) 402 40000 51600 =
      (true, 9.728) := by
    rw [getLux_of_ratio _ 402 40000 51600 1.29 (by decide) (by decide) (by norm_num)]
    have hg : (TSL2561.sample false 2)._gain = false := rfl
    simp only [hg, Bool.false_eq_true, if_false]
    norm_num
  have hF3 : TSL2561.getLux Real.rpow (TSL2561.sample false 0) 14 4900 3430 =
      (true, 4705.008) := by
    rw [getLux_of_ratio _ 14 4900 3430 0.7 (by decide) (by decide) (by norm_num)]
    have hg : (TSL2561.sample false 0)._gain = false := rfl
    simp only [hg, Bool.false_eq_true, if_false]
    norm_num
  refine ⟨hI1, hF1, ?_, hI2, hF2, ?_, hI3, hF3, ?_⟩
  · unfold agreeWithin2
    rw [hI1, hF1]
    norm_num [abs_le]
  · unfold agreeWithin2
    rw [hI2, hF2]
    norm_num [abs_le]
  · unfold agreeWithin2
    rw [hI3, hF3]
    norm_num [abs_le]

/-- The integer lux of `getLuxInt` and the lux of `getLux`, read over the real numbers, do
agree within 2% relative error on these ten identical inputs: Long mode (ms = 402), gain
High16x, CH0 = 10000 with CH1 = 1000, 2000, 3000, 4000, 5500, 7000 and 15000; Medium mode
(ms = 101), gain High16x, (10000, 5500); Fast mode (ms = 14), gain High16x, (4000, 2200);
Long mode, gain Low1x, (1000, 700). -/
theorem lux_conversions_agree_on_samples :
    agreeWithin2 (TSL2561.sample true 2) 402 10000 1000 ∧
    agreeWithin2 (TSL2561.sample true 2) 402 10000 2000 ∧
    agreeWithin2 (TSL2561.sample true 2) 402 10000 3000 ∧
    agreeWithin2 (TSL2561.sample true 2) 402 10000 4000 ∧
    agreeWithin2 (TSL2561.sample true 2) 402 10000 5500 ∧
    agreeWithin2 (TSL2561.sample true 2) 402 10000 7000 ∧
    agreeWithin2 (TSL2561.sample true 2) 402 10000 15000 ∧
    agreeWithin2 (TSL2561.sample true 1) 101 10000 5500 ∧
    agreeWithin2 (TSL2561.sample true 0) 14 4000 2200 ∧
    agreeWithin2 (TSL2561.sample false 2) 402 1000 700 := by
  have hgt : ∀ it, (TSL2561.sample true it)._gain = true := fun _ => rfl
  have hgf : (TSL2561.sample false 2)._gain = false := rfl
  refine ⟨?_, ?_, ?_, ?_, ?_, ?_, ?_, ?_, ?_, ?_⟩
  · exact agreeWithin2_pow 1000 277 0.1 0.035 0.052 (by decide) (by norm_num) (by norm_num)
      (by norm_num) (by rfl) (by norm_num) (by norm_num) (by norm_num) (by norm_num)
      (by norm_num)
  · exact agreeWithin2_pow 2000 237 0.2 0.101 0.115 (by decide) (by norm_num) (by norm_num)
      (by norm_num) (by rfl) (by norm_num) (by norm_num) (by norm_num) (by norm_num)
      (by norm_num)
  · exact agreeWithin2_pow 3000 188 0.3 0.181 0.193 (by decide) (by norm_num) (by norm_num)
      (by norm_num) (by rfl) (by norm_num) (by norm_num) (by norm_num) (by norm_num)
      (by norm_num)
  · exact agreeWithin2_pow 4000 131 0.4 0.275 0.283 (by decide) (by norm_num) (by norm_num)
      (by norm_num) (by rfl) (by norm_num) (by norm_num) (by norm_num) (by norm_num)
      (by norm_num)
  · refine agreeWithin2_of _ _ _ _ 53 53.5 (by rfl) ?_ (by norm_num)
    rw [getLux_of_ratio _ 402 10000 5500 0.55 (by decide) (by decide) (by norm_num)]
    simp only [hgt, if_true]
    norm_num
  · refine agreeWithin2_of _ _ _ _ 21 20.9 (by rfl) ?_ (by norm_num)
    rw [getLux_of_ratio _ 402 10000 7000 0.7 (by decide) (by decide) (by norm_num)]
    simp only [hgt, if_true]
    norm_num
  · refine agreeWithin2_of _ _ _ _ 0 0 (by rfl) ?_ (by norm_num)
    rw [getLux_of_ratio _ 402 10000 15000 1.5 (by decide) (by decide) (by norm_num)]
    norm_num
  · refine agreeWithin2_of _ _ _ _ 213 (21507 / 101) (by rfl) ?_ (by norm_num)
    rw [getLux_of_ratio _ 101 10000 5500 0.55 (by decide) (by decide) (by norm_num)]
    simp only [hgt, if_true]
    norm_num
  · refine agreeWithin2_of _ _ _ _ 626 (21507 / 35) (by rfl) ?_ (by norm_num)
    rw [getLux_of_ratio _ 14 4000 2200 0.55 (by decide) (by decide) (by norm_num)]
    simp only [hgt, if_true]
    norm_num
  · refine agreeWithin2_of _ _ _ _ 33 33.44 (by rfl) ?_ (by norm_num)
    rw [getLux_of_ratio _ 402 1000 700 0.7 (by decide) (by decide) (by norm_num)]
    simp only [hgf, Bool.false_eq_true, if_false]
    norm_num

/-! ## Manual integration -/

theorem manual_bytes (t : Nat) :
    u8 (u8 t ||| 0x03) = u8 t ||| 0x03 ∧
    u8 (u8 (u8 t ||| 0x03) ||| 0x08) = u8 t ||| 0x0B ∧
    u8 ((u8 t ||| 0x0B) &&& not32 0x08) = (u8 t ||| 0x03) &&& 0xF7 ∧
    u8 (u8 (u8 t ||| 0x0B) ||| 0x03) = u8 t ||| 0x0B ∧
    u8 (u8 t ||| 0x0B) = u8 t ||| 0x0B ∧
    (∀ k ∈ [2, 4, 5, 6, 7], (u8 t ||| 0x0B).testBit k = (u8 t).testBit k ∧
      ((u8 t ||| 0x03) &&& 0xF7).testBit k = (u8 t).testBit k) := by
  have h : ∀ t < 256,
      u8 (t ||| 0x03) = t ||| 0x03 ∧
      u8 (u8 (t ||| 0x03) ||| 0x08) = t ||| 0x0B ∧
      u8 ((t ||| 0x0B) &&& not32 0x08) = (t ||| 0x03) &&& 0xF7 ∧
      u8 (u8 (t ||| 0x0B) ||| 0x03) = t ||| 0x0B ∧
      u8 (t ||| 0x0B) = t ||| 0x0B ∧
      (∀ k ∈ [2, 4, 5, 6, 7], (t ||| 0x0B).testBit k = t.testBit k ∧
        ((t ||| 0x03) &&& 0xF7).testBit k = t.testBit k) := by
    decide!
  exact h (u8 t) (u8_lt t)

/-- `manualStart` when its three transactions succeed. -/
theorem TSL2561.manualStart_ok (s : TSL2561)
    (h0 : (s.wire.nth 0).readOK 1) (h1 : (s.wire.nth 1).sent) (h2 : (s.wire.nth 2).sent) :
    s.manualStart =
      (true, { s with _error := 0,
                      wire := ((s.wire.select 0x81 1).store 0x81 (s.wire.timing ||| 0x03)).store
                        0x81 (s.wire.timing ||| 0x0B) }) := by
  have hb := manual_bytes (s.wire.regs TSL2561_REG_TIMING)
  have e1 : ((s.wire.select 0x81 1).nth 0).sent := by
    rw [Wire.nth_select]
    exact h1
  have e2 : (((s.wire.select 0x81 1).store 0x81 (u8 (u8 (s.wire.timing ||| 0x03)))).nth 0).sent := by
    rw [Wire.nth_store, Wire.nth_select]
    exact h2
  unfold TSL2561.manualStart
  rw [TSL2561.readByte_ok s _ _ h0]
  simp only [if_true, cmd_timing, Wire.fetch_timing, Wire.u8_timing]
  rw [TSL2561.writeByte_ok _ _ _ (by simpa [cmd_timing] using e1)]
  simp only [if_true, cmd_timing]
  rw [TSL2561.writeByte_ok _ _ _ (by simpa [cmd_timing] using e2)]
  simp only [if_true, cmd_timing, u8_u8]
  have t1 : u8 (s.wire.timing ||| 0x03) = s.wire.timing ||| 0x03 := hb.1
  have t2 : u8 (u8 (s.wire.timing ||| 0x03) ||| 0x08) = s.wire.timing ||| 0x0B := hb.2.1
  rw [t2, t1]

/-- `manualStop` when its two transactions succeed. -/
theorem TSL2561.manualStop_ok (s : TSL2561)
    (h0 : (s.wire.nth 0).readOK 1) (h1 : (s.wire.nth 1).sent) :
    s.manualStop =
      (true, { s with _error := 0,
                      wire := (s.wire.select 0x81 1).store 0x81
                        (u8 (s.wire.timing &&& not32 0x08)) }) := by
  have e1 : ((s.wire.select 0x81 1).nth 0).sent := by
    rw [Wire.nth_select]
    exact h1
  unfold TSL2561.manualStop
  rw [TSL2561.readByte_ok s _ _ h0]
  simp only [if_true, cmd_timing, Wire.fetch_timing, Wire.u8_timing]
  rw [TSL2561.writeByte_ok _ _ _ (by simpa [cmd_timing] using e1)]
  simp only [if_true, cmd_timing, u8_u8]

theorem manual_twice_byte (t : Nat) : u8 ((u8 t ||| 0x0B) ||| 0x0B) = u8 t ||| 0x0B := by
  have h : ∀ t < 256, u8 ((t ||| 0x0B) ||| 0x0B) = t ||| 0x0B := by decide!
  exact h (u8 t) (u8_lt t)

/-- The timing register after a successful `manualStart`. -/
theorem TSL2561.manualStart_timing (s : TSL2561)
    (h0 : (s.wire.nth 0).readOK 1) (h1 : (s.wire.nth 1).sent) (h2 : (s.wire.nth 2).sent) :
    s.manualStart.2.wire.timing = s.wire.timing ||| 0x0B ∧
    ∀ k, s.manualStart.2.wire.nth k = s.wire.nth (k + 3) := by
  have hb := manual_bytes (s.wire.regs TSL2561_REG_TIMING)
  have e2 : (((s.wire.select 0x81 1).store 0x81 (s.wire.timing ||| 0x03)).nth 0).sent := by
    rw [Wire.nth_store, Wire.nth_select]
    exact h2
  rw [TSL2561.manualStart_ok s h0 h1 h2]
  constructor
  · show (Wire.store _ 0x81 (s.wire.timing ||| 0x0B)).timing = _
    rw [Wire.timing_store, if_pos e2]
    exact hb.2.2.2.2.1
  · intro k
    show (Wire.store _ 0x81 (s.wire.timing ||| 0x0B)).nth k = _
    rw [Wire.nth_store, Wire.nth_store, Wire.nth_select]

/-- C18: when all bus operations succeed, `manualStart` reads the timing byte `t`, writes
`t | 0x03` and then `t | 0x0B`, which the register then holds; a following `manualStop`
leaves the register at `(t | 0x03) & ~0x08` (as a byte: `& 0xF7`); in both values bits 2, 4,
5, 6 and 7 are those of `t`; and a second `manualStart` in a row leaves the register value
of the first. -/
theorem manualStart_stop_register (s : TSL2561)
    (h0 : (s.wire.nth 0).readOK 1) (h1 : (s.wire.nth 1).sent) (h2 : (s.wire.nth 2).sent)
    (h3 : (s.wire.nth 3).readOK 1) (h4 : (s.wire.nth 4).sent) (h5 : (s.wire.nth 5).sent) :
    s.manualStart.1 = true ∧
    newOps s.wire s.manualStart.2.wire =
      [BusOp.recv 0x81 1, BusOp.send 0x81 (s.wire.timing ||| 0x03),
       BusOp.send 0x81 (s.wire.timing ||| 0x0B)] ∧
    s.manualStart.2.wire.timing = s.wire.timing ||| 0x0B ∧
    s.manualStart.2.manualStop.1 = true ∧
    s.manualStart.2.manualStop.2.wire.timing = (s.wire.timing ||| 0x03) &&& 0xF7 ∧
    (∀ k ∈ [2, 4, 5, 6, 7],
      (s.wire.timing ||| 0x0B).testBit k = s.wire.timing.testBit k ∧
      ((s.wire.timing ||| 0x03) &&& 0xF7).testBit k = s.wire.timing.testBit k) ∧
    s.manualStart.2.manualStart.1 = true ∧
    s.manualStart.2.manualStart.2.wire.timing = s.manualStart.2.wire.timing := by
  have hb := manual_bytes (s.wire.regs TSL2561_REG_TIMING)
  obtain ⟨ht, hn⟩ := TSL2561.manualStart_timing s h0 h1 h2
  have g0 : (s.manualStart.2.wire.nth 0).readOK 1 := by
    rw [hn]
    exact h3
  have g1 : (s.manualStart.2.wire.nth 1).sent := by
    rw [hn]
    exact h4
  have g2 : (s.manualStart.2.wire.nth 2).sent := by
    rw [hn]
    exact h5
  have hstop : s.manualStart.2.manualStop.2.wire.timing = (s.wire.timing ||| 0x03) &&& 0xF7 := by
    have e1 : ((s.manualStart.2.wire.select 0x81 1).nth 0).sent := by
      rw [Wire.nth_select]
      exact g1
    rw [TSL2561.manualStop_ok _ g0 g1]
    show (Wire.store _ 0x81 _).timing = _
    rw [Wire.timing_store, if_pos e1, u8_u8, ht]
    exact hb.2.2.1
  have htwice := (TSL2561.manualStart_timing s.manualStart.2 g0 g1 g2).1
  refine ⟨?_, ?_, ht, ?_, hstop, hb.2.2.2.2.2, ?_, ?_⟩
  · rw [TSL2561.manualStart_ok s h0 h1 h2]
  · rw [TSL2561.manualStart_ok s h0 h1 h2]
    simp [newOps, Wire.store, Wire.select]
  · rw [TSL2561.manualStop_ok _ g0 g1]
  · rw [TSL2561.manualStart_ok _ g0 g1 g2]
  · rw [htwice, ht]
    have h := manual_twice_byte (s.wire.regs TSL2561_REG_TIMING)
    have hu : u8 (s.wire.timing ||| 0x0B ||| 0x0B) = s.wire.timing ||| 0x0B ||| 0x0B := by
      have hlt : ∀ t < 256, u8 (t ||| 0x0B ||| 0x0B) = t ||| 0x0B ||| 0x0B := by decide!
      exact hlt _ (u8_lt _)
    rw [← hu]
    exact h

/-- C18 with the prior timing byte `0xAD`: `manualStart` leaves `0xAF`, `manualStop` after
it `0xA7`. -/
theorem manualStart_stop_register_witness :
    timingDemo.manualStart.1 = true ∧
    newOps timingDemo.wire timingDemo.manualStart.2.wire =
      [BusOp.recv 0x81 1, BusOp.send 0x81 (timingDemo.wire.timing ||| 0x03),
       BusOp.send 0x81 (timingDemo.wire.timing ||| 0x0B)] ∧
    timingDemo.manualStart.2.wire.timing = timingDemo.wire.timing ||| 0x0B ∧
    timingDemo.manualStart.2.manualStop.1 = true ∧
    timingDemo.manualStart.2.manualStop.2.wire.timing =
      (timingDemo.wire.timing ||| 0x03) &&& 0xF7 ∧
    (∀ k ∈ [2, 4, 5, 6, 7],
      (timingDemo.wire.timing ||| 0x0B).testBit k = timingDemo.wire.timing.testBit k ∧
      ((timingDemo.wire.timing ||| 0x03) &&& 0xF7).testBit k =
        timingDemo.wire.timing.testBit k) ∧
    timingDemo.manualStart.2.manualStart.1 = true ∧
    timingDemo.manualStart.2.manualStart.2.wire.timing = timingDemo.manualStart.2.wire.timing :=
  manualStart_stop_register timingDemo (by decide) (by decide) (by decide) (by decide)
    (by decide) (by decide)

/-! ## Interrupt control and the retained error status -/

/-- C19 (evaluation at the failing input): with control = 1 and persist = 2 (and the write
succeeding) `setInterruptControl` sends the byte 0 to the interrupt control register, where
`(control << 4) | persist` is 0x12; it sends 0 as well for (1, 0), (1, 15) and (0, 5), whose
bytes should be 0x10, 0x1F and 0x05. -/
theorem setInterruptControl_writes_zero :
    ((TSL2561.sample true 2).setInterruptControl 1 2).1 = true ∧
    newOps (TSL2561.sample true 2).wire ((TSL2561.sample true 2).setInterruptControl 1 2).2.wire =
      [BusOp.send 0x86 0] ∧
    ((1 <<< 4) ||| 2 : Nat) = 0x12 ∧
    newOps (TSL2561.sample true 2).wire ((TSL2561.sample true 2).setInterruptControl 1 0).2.wire =
      [BusOp.send 0x86 0] ∧
    newOps (TSL2561.sample true 2).wire ((TSL2561.sample true 2).setInterruptControl 1 15).2.wire =
      [BusOp.send 0x86 0] ∧
    newOps (TSL2561.sample true 2).wire ((TSL2561.sample true 2).setInterruptControl 0 5).2.wire =
      [BusOp.send 0x86 0] := by
  decide

/-- A write that fails leaves a non-zero error status behind. -/
theorem TSL2561.writeByte_error (s : TSL2561) (a v : Nat) (h : (s.writeByte a v).1 = false) :
    (s.writeByte a v).2.getError ≠ 0 := by
  by_cases hs : (s.wire.nth 0).sent
  · rw [TSL2561.writeByte_ok s a v hs] at h
    exact Bool.noConfusion h
  · rw [TSL2561.writeByte_fail s a v hs]
    exact hs

/-- C20 (evaluation at the failing input): the transmission of a read is acknowledged but no
byte is available afterwards; `getID`, `setTiming` and `getData` return false and `getError`
right after each of them returns 0, the code of success. -/
theorem getError_zero_after_failed_read :
    (shortReadDemo.getID 0).1 = false ∧ (shortReadDemo.getID 0).2.2.getError = 0 ∧
    (shortReadDemo.setTiming true 2).1 = false ∧
    (shortReadDemo.setTiming true 2).2.2.getError = 0 ∧
    (shortReadDemo.getData 0 0 false).1 = false ∧
    (shortReadDemo.getData 0 0 false).2.2.2.getError = 0 := by
  decide

/-! ## The steps of the integer conversion -/

/-- `getLuxInt` is the composition of its steps. -/
theorem TSL2561.getLuxInt_steps (s : TSL2561) (CH0 CH1 : Nat) :
    s.getLuxInt CH0 CH1 =
      if CH0 > specClip s._it ∨ CH1 > specClip s._it then (false, 0)
      else
        (true, u32 (u32 (sub32 (u32 (s.luxChannel CH0 * s.luxB CH0 CH1))
                               (u32 (s.luxChannel CH1 * s.luxM CH0 CH1))
                          + u32 (1 <<< (TSL2561_LUX_LUXSCALE - 1)))
                    >>> TSL2561_LUX_LUXSCALE)) := by
  have hclip : (match s._it with
      | 0 => TSL2561_CLIPPING_13MS
      | 1 => TSL2561_CLIPPING_101MS
      | _ => TSL2561_CLIPPING_402MS) = specClip s._it := by
    unfold specClip
    split <;> simp_all [TSL2561_CLIPPING_13MS, TSL2561_CLIPPING_101MS, TSL2561_CLIPPING_402MS]
  unfold TSL2561.getLuxInt
  simp only [hclip]
  by_cases h : CH0 > specClip s._it ∨ CH1 > specClip s._it
  · rw [if_pos h, if_pos h]
  · rw [if_neg h, if_neg h]
    simp only [Nat.not_lt_zero, if_false]
    rfl

/-- The six values of `chScale`, with the clipping threshold of the mode. -/
theorem TSL2561.luxChScale_cases (s : TSL2561) :
    (specClip s._it = 4900 ∧ (s.luxChScale = 29975 ∨ s.luxChScale = 479600)) ∨
    (specClip s._it = 37000 ∧ (s.luxChScale = 4071 ∨ s.luxChScale = 65136)) ∨
    (specClip s._it = 65000 ∧ (s.luxChScale = 1024 ∨ s.luxChScale = 16384)) := by
  have e10 : u32 (1 <<< TSL2561_LUX_CHSCALE) = 1024 := by decide
  have e0 : u32 (TSL2561_LUX_CHSCALE_TINT0 <<< 4) = 479600 := by decide
  have e1 : u32 (TSL2561_LUX_CHSCALE_TINT1 <<< 4) = 65136 := by decide
  have e2 : u32 16384 = 16384 := by decide
  have t0 : TSL2561_LUX_CHSCALE_TINT0 = 29975 := by decide
  have t1 : TSL2561_LUX_CHSCALE_TINT1 = 4071 := by decide
  obtain ⟨a, e, g, it, w⟩ := s
  rcases it with _ | _ | n
  · cases g
    · exact Or.inl ⟨by simp [specClip], Or.inr (by simp [TSL2561.luxChScale, e0])⟩
    · exact Or.inl ⟨by simp [specClip], Or.inl (by simp [TSL2561.luxChScale, t0])⟩
  · cases g
    · exact Or.inr (Or.inl ⟨by simp [specClip], Or.inr (by simp [TSL2561.luxChScale, e1])⟩)
    · exact Or.inr (Or.inl ⟨by simp [specClip], Or.inl (by simp [TSL2561.luxChScale, t1])⟩)
  · cases g
    · exact Or.inr (Or.inr ⟨by simp [specClip], Or.inr (by simp [TSL2561.luxChScale, e10, e2])⟩)
    · exact Or.inr (Or.inr ⟨by simp [specClip], Or.inl (by simp [TSL2561.luxChScale, e10])⟩)

/-- A raw value within the clipping threshold is scaled without overflow: the product
`CH * chScale` is below `2^32`, and the scaled channel is its quotient by `2^10`. -/
theorem TSL2561.luxChannel_bound (s : TSL2561) (CH : Nat) (h : CH ≤ specClip s._it) :
    CH * s.luxChScale < 2 ^ 32 ∧
    s.luxChannel CH = CH * s.luxChScale / 1024 ∧
    s.luxChannel CH ≤ 2353546 ∧ CH ≤ s.luxChannel CH ∧
    s.luxChannel CH * 1024 ≤ CH * s.luxChScale := by
  have hlt : CH * s.luxChScale < 2 ^ 32 := by
    rcases TSL2561.luxChScale_cases s with ⟨hc, hs | hs⟩ | ⟨hc, hs | hs⟩ | ⟨hc, hs | hs⟩ <;>
      rw [hs] <;> rw [hc] at h <;> omega
  have hch : s.luxChannel CH = CH * s.luxChScale / 1024 := by
    unfold TSL2561.luxChannel u32 TSL2561_LUX_CHSCALE
    rw [Nat.mod_eq_of_lt hlt, Nat.shiftRight_eq_div_pow]
  refine ⟨hlt, hch, ?_, ?_, ?_⟩
  · rw [hch]
    rcases TSL2561.luxChScale_cases s with ⟨hc, hs | hs⟩ | ⟨hc, hs | hs⟩ | ⟨hc, hs | hs⟩ <;>
      rw [hs] <;> rw [hc] at h <;> omega
  · rw [hch]
    rcases TSL2561.luxChScale_cases s with ⟨hc, hs | hs⟩ | ⟨hc, hs | hs⟩ | ⟨hc, hs | hs⟩ <;>
      rw [hs] <;> omega
  · rw [hch]
    exact Nat.div_mul_le_self _ _

/-- The ratio without the 32-bit reductions, for a scaled channel 1 that fits. -/
theorem luxRatio_eq (c0 c1 : Nat) (h1 : c1 ≤ 2353546) :
    c1 <<< (TSL2561_LUX_RATIOSCALE + 1) = c1 * 1024 ∧ c1 * 1024 < 2 ^ 32 ∧
    luxRatio c0 c1 = if c0 ≠ 0 then (c1 * 1024 / c0 + 1) / 2 else 0 := by
  have hs : c1 <<< (TSL2561_LUX_RATIOSCALE + 1) = c1 * 1024 := by
    unfold TSL2561_LUX_RATIOSCALE
    rw [Nat.shiftLeft_eq]
  have hlt : c1 * 1024 < 2 ^ 32 := by omega
  refine ⟨hs, hlt, ?_⟩
  unfold luxRatio
  simp only [hs]
  by_cases h0 : c0 ≠ 0
  · have hq : c1 * 1024 / c0 ≤ c1 * 1024 := Nat.div_le_self _ _
    have hu : u32 (c1 * 1024) = c1 * 1024 := Nat.mod_eq_of_lt hlt
    have hu2 : u32 (c1 * 1024 / c0 + 1) = c1 * 1024 / c0 + 1 := Nat.mod_eq_of_lt (by omega)
    rw [if_pos h0, if_pos h0, hu, hu2, Nat.shiftRight_eq_div_pow]
  · rw [if_neg h0, if_neg h0]
    decide

/-- The eight rows of the table, by the range of the ratio. -/
theorem luxSegment_cases (r : Nat) :
    (r ≤ 64 ∧ luxSegment r = (498, 446)) ∨
    (64 < r ∧ r ≤ 128 ∧ luxSegment r = (532, 721)) ∨
    (128 < r ∧ r ≤ 192 ∧ luxSegment r = (575, 891)) ∨
    (192 < r ∧ r ≤ 256 ∧ luxSegment r = (624, 1022)) ∨
    (256 < r ∧ r ≤ 312 ∧ luxSegment r = (367, 508)) ∨
    (312 < r ∧ r ≤ 410 ∧ luxSegment r = (210, 251)) ∨
    (410 < r ∧ r ≤ 666 ∧ luxSegment r = (24, 18)) ∨
    (666 < r ∧ luxSegment r = (0, 0)) := by
  unfold luxSegment TSL2561_LUX_K1T TSL2561_LUX_K2T TSL2561_LUX_K3T TSL2561_LUX_K4T
    TSL2561_LUX_K5T TSL2561_LUX_K6T TSL2561_LUX_K7T TSL2561_LUX_K8T
    TSL2561_LUX_B1T TSL2561_LUX_B2T TSL2561_LUX_B3T TSL2561_LUX_B4T
    TSL2561_LUX_B5T TSL2561_LUX_B6T TSL2561_LUX_B7T TSL2561_LUX_B8T
    TSL2561_LUX_M1T TSL2561_LUX_M2T TSL2561_LUX_M3T TSL2561_LUX_M4T
    TSL2561_LUX_M5T TSL2561_LUX_M6T TSL2561_LUX_M7T TSL2561_LUX_M8T
  split_ifs <;> simp_all

/-- With a non-zero scaled channel 0, the selected row satisfies `s1 * m <= s0 * b`. -/
theorem segment_dominates (c0 c1 : Nat) (h0 : 0 < c0) (h1 : c1 ≤ 2353546) :
    c1 * (luxSegment (luxRatio c0 c1)).2 ≤ c0 * (luxSegment (luxRatio c0 c1)).1 := by
  have hr := (luxRatio_eq c0 c1 h1).2.2
  rw [if_pos (by omega)] at hr
  have key : ∀ K : Nat, luxRatio c0 c1 ≤ K → c1 * 1024 < (2 * K + 2) * c0 := by
    intro K hK
    rw [hr] at hK
    have hq : c1 * 1024 / c0 < 2 * K + 2 := by omega
    exact (Nat.div_lt_iff_lt_mul h0).mp hq
  rcases luxSegment_cases (luxRatio c0 c1) with
    ⟨h, e⟩ | ⟨_, h, e⟩ | ⟨_, h, e⟩ | ⟨_, h, e⟩ | ⟨_, h, e⟩ | ⟨_, h, e⟩ | ⟨_, h, e⟩ | ⟨_, e⟩
  · have := key _ h
    rw [e]
    show c1 * 446 ≤ c0 * 498
    omega
  · have := key _ h
    rw [e]
    show c1 * 721 ≤ c0 * 532
    omega
  · have := key _ h
    rw [e]
    show c1 * 891 ≤ c0 * 575
    omega
  · have := key _ h
    rw [e]
    show c1 * 1022 ≤ c0 * 624
    omega
  · have := key _ h
    rw [e]
    show c1 * 508 ≤ c0 * 367
    omega
  · have := key _ h
    rw [e]
    show c1 * 251 ≤ c0 * 210
    omega
  · have := key _ h
    rw [e]
    show c1 * 18 ≤ c0 * 24
    omega
  · rw [e]
    show c1 * 0 ≤ c0 * 0
    omega

/-- Every selected coefficient is at most `0x0270` for `b` and `0x03fe` for `m`. -/
theorem luxSegment_le (r : Nat) : (luxSegment r).1 ≤ 624 ∧ (luxSegment r).2 ≤ 1022 := by
  rcases luxSegment_cases r with
    ⟨_, e⟩ | ⟨_, _, e⟩ | ⟨_, _, e⟩ | ⟨_, _, e⟩ | ⟨_, _, e⟩ | ⟨_, _, e⟩ | ⟨_, _, e⟩ | ⟨_, e⟩ <;>
    rw [e] <;> exact ⟨by decide, by decide⟩

/-- The 32-bit subtraction is the difference when it is not negative. -/
theorem sub32_of_le (A B : Nat) (hA : A < 2 ^ 32) (hB : B ≤ A) : sub32 A B = A - B := by
  have hA' : A < 4294967296 := by omega
  unfold sub32 u32
  norm_num
  rw [Nat.mod_eq_of_lt (show B < 4294967296 by omega)]
  omega

/-- C24: for every gain, every cached integration mode and every raw pair in which neither
channel exceeds the clipping threshold of the mode, the products and the shift of
`getLuxInt`, `CH0 * chScale`, `CH1 * chScale`, `channel1 << 10`, `channel0 * b` and
`channel1 * m`, are below `2^32`, so their reduction modulo `2^32` leaves them unchanged. -/
theorem getLuxInt_no_overflow (s : TSL2561) (CH0 CH1 : Nat)
    (h0 : CH0 ≤ specClip s._it) (h1 : CH1 ≤ specClip s._it) :
    (CH0 * s.luxChScale < 2 ^ 32 ∧ CH1 * s.luxChScale < 2 ^ 32 ∧
     s.luxChannel CH1 <<< (TSL2561_LUX_RATIOSCALE + 1) < 2 ^ 32 ∧
     s.luxChannel CH0 * s.luxB CH0 CH1 < 2 ^ 32 ∧
     s.luxChannel CH1 * s.luxM CH0 CH1 < 2 ^ 32) ∧
    (u32 (CH0 * s.luxChScale) = CH0 * s.luxChScale ∧
     u32 (CH1 * s.luxChScale) = CH1 * s.luxChScale ∧
     u32 (s.luxChannel CH1 <<< (TSL2561_LUX_RATIOSCALE + 1)) =
       s.luxChannel CH1 <<< (TSL2561_LUX_RATIOSCALE + 1) ∧
     u32 (s.luxChannel CH0 * s.luxB CH0 CH1) = s.luxChannel CH0 * s.luxB CH0 CH1 ∧
     u32 (s.luxChannel CH1 * s.luxM CH0 CH1) = s.luxChannel CH1 * s.luxM CH0 CH1) := by
  obtain ⟨a0, _, b0, _, _⟩ := TSL2561.luxChannel_bound s CH0 h0
  obtain ⟨a1, _, b1, _, _⟩ := TSL2561.luxChannel_bound s CH1 h1
  obtain ⟨hs, hlt, _⟩ := luxRatio_eq (s.luxChannel CH0) (s.luxChannel CH1) b1
  have hbm := luxSegment_le (luxRatio (s.luxChannel CH0) (s.luxChannel CH1))
  have hb : s.luxChannel CH0 * s.luxB CH0 CH1 < 2 ^ 32 := by
    have : s.luxChannel CH0 * s.luxB CH0 CH1 ≤ 2353546 * 624 :=
      Nat.mul_le_mul b0 hbm.1
    omega
  have hm : s.luxChannel CH1 * s.luxM CH0 CH1 < 2 ^ 32 := by
    have : s.luxChannel CH1 * s.luxM CH0 CH1 ≤ 2353546 * 1022 :=
      Nat.mul_le_mul b1 hbm.2
    omega
  have hsh : s.luxChannel CH1 <<< (TSL2561_LUX_RATIOSCALE + 1) < 2 ^ 32 := by
    rw [hs]
    exact hlt
  exact ⟨⟨a0, a1, hsh, hb, hm⟩, Nat.mod_eq_of_lt a0, Nat.mod_eq_of_lt a1,
    Nat.mod_eq_of_lt hsh, Nat.mod_eq_of_lt hb, Nat.mod_eq_of_lt hm⟩

/-- C24 at Fast mode, gain Low1x, CH0 = CH1 = 4900, the largest products of that mode. -/
theorem getLuxInt_no_overflow_witness :
    (4900 * (TSL2561.sample false 0).luxChScale < 2 ^ 32 ∧
     4900 * (TSL2561.sample false 0).luxChScale < 2 ^ 32 ∧
     (TSL2561.sample false 0).luxChannel 4900 <<< (TSL2561_LUX_RATIOSCALE + 1) < 2 ^ 32 ∧
     (TSL2561.sample false 0).luxChannel 4900 * (TSL2561.sample false 0).luxB 4900 4900
       < 2 ^ 32 ∧
     (TSL2561.sample false 0).luxChannel 4900 * (TSL2561.sample false 0).luxM 4900 4900
       < 2 ^ 32) :=
  (getLuxInt_no_overflow (TSL2561.sample false 0) 4900 4900 (by decide) (by decide)).1

/-- C23: for every gain, every cached integration mode and every raw pair within the
clipping threshold, the row (b, m) that `getLuxInt` selects satisfies `s0*b >= s1*m` as
soon as CH0 >= 1, so the unsigned subtraction `channel0*b - channel1*m` does not wrap
around; the difference is negative exactly when CH0 = 0 and CH1 > 0. -/
theorem getLuxInt_difference (s : TSL2561) (CH0 CH1 : Nat)
    (h0 : CH0 ≤ specClip s._it) (h1 : CH1 ≤ specClip s._it) :
    (1 ≤ CH0 →
      s.luxChannel CH1 * s.luxM CH0 CH1 ≤ s.luxChannel CH0 * s.luxB CH0 CH1 ∧
      sub32 (u32 (s.luxChannel CH0 * s.luxB CH0 CH1)) (u32 (s.luxChannel CH1 * s.luxM CH0 CH1)) =
        s.luxChannel CH0 * s.luxB CH0 CH1 - s.luxChannel CH1 * s.luxM CH0 CH1) ∧
    (s.luxChannel CH0 * s.luxB CH0 CH1 < s.luxChannel CH1 * s.luxM CH0 CH1 ↔
      (CH0 = 0 ∧ 0 < CH1)) := by
  obtain ⟨_, e0, _, g0, _⟩ := TSL2561.luxChannel_bound s CH0 h0
  obtain ⟨_, e1, b1, g1, _⟩ := TSL2561.luxChannel_bound s CH1 h1
  obtain ⟨⟨_, _, _, hb32, _⟩, ⟨_, _, _, ub, um⟩⟩ := getLuxInt_no_overflow s CH0 CH1 h0 h1
  have hpos : 1 ≤ CH0 →
      s.luxChannel CH1 * s.luxM CH0 CH1 ≤ s.luxChannel CH0 * s.luxB CH0 CH1 := by
    intro h
    exact segment_dominates (s.luxChannel CH0) (s.luxChannel CH1) (by omega) b1
  refine ⟨fun h => ⟨hpos h, ?_⟩, ⟨fun hlt => ?_, fun hz => ?_⟩⟩
  · rw [ub, um]
    exact sub32_of_le _ _ hb32 (hpos h)
  · by_cases hc : 1 ≤ CH0
    · have := hpos hc
      omega
    · have hz : CH0 = 0 := by omega
      refine ⟨hz, ?_⟩
      by_contra hn
      have h10 : CH1 = 0 := by omega
      rw [h10] at e1
      have : s.luxChannel 0 = 0 := by
        rw [e1]
        simp
      rw [h10, this] at hlt
      omega
  · obtain ⟨hz, hp⟩ := hz
    have hc0 : s.luxChannel CH0 = 0 := by
      rw [e0, hz]
      simp
    have hr : luxRatio 0 (s.luxChannel CH1) = 0 := by
      rw [(luxRatio_eq 0 (s.luxChannel CH1) b1).2.2]
      simp
    have hB : s.luxM CH0 CH1 = 446 := by
      unfold TSL2561.luxM
      rw [hc0, hr]
      decide
    rw [hc0, hB]
    omega

/-- C23 at Medium mode, gain High16x, CH0 = 100, CH1 = 130 (ratio 1.3). -/
theorem getLuxInt_difference_witness :
    (TSL2561.sample true 1).luxChannel 130 * (TSL2561.sample true 1).luxM 100 130 ≤
      (TSL2561.sample true 1).luxChannel 100 * (TSL2561.sample true 1).luxB 100 130 ∧
    sub32 (u32 ((TSL2561.sample true 1).luxChannel 100 * (TSL2561.sample true 1).luxB 100 130))
        (u32 ((TSL2561.sample true 1).luxChannel 130 * (TSL2561.sample true 1).luxM 100 130)) =
      (TSL2561.sample true 1).luxChannel 100 * (TSL2561.sample true 1).luxB 100 130 -
        (TSL2561.sample true 1).luxChannel 130 * (TSL2561.sample true 1).luxM 100 130 :=
  (getLuxInt_difference (TSL2561.sample true 1) 100 130 (by decide) (by decide)).1 (by decide)

/-! ## The device ID -/

/-- C21 (counterexample): the ID read succeeds with the byte 0x51, or 0x5F, whose upper
nibble is the part number 0x5, and `begin` returns false. -/
theorem begin_rejects_revision :
    ((idDemo 0x51).wire.nth 0).readOK 1 ∧ 0x51 / 16 = 5 ∧ (idDemo 0x51).begin.1 = false ∧
    ((idDemo 0x5F).wire.nth 0).readOK 1 ∧ 0x5F / 16 = 5 ∧ (idDemo 0x5F).begin.1 = false := by
  decide

/-- C21 (amended): `begin` returns true exactly when the read of the ID register succeeds
and the byte read is 0x50, part number 0x5 with revision 0; so it returns false when the
read fails, when the upper nibble of the byte is not 0x5, and when the revision nibble is
not 0. -/
theorem begin_iff (s : TSL2561) :
    (s.begin.1 = true ↔ ((s.wire.nth 0).readOK 1 ∧ u8 (s.wire.nth 0).lo = 0x50)) ∧
    (¬ (s.wire.nth 0).readOK 1 → s.begin.1 = false) ∧
    (u8 (s.wire.nth 0).lo / 16 ≠ 5 → s.begin.1 = false) ∧
    (u8 (s.wire.nth 0).lo % 16 ≠ 0 → s.begin.1 = false) := by
  have key : s.begin.1 = true ↔ ((s.wire.nth 0).readOK 1 ∧ u8 (s.wire.nth 0).lo = 0x50) := by
    unfold TSL2561.begin
    by_cases hr : (s.wire.nth 0).readOK 1
    · rw [TSL2561.readByte_ok s _ _ hr]
      have hf := (Wire.fetch_data s.wire (TSL2561_REG_ID &&& 0x0F) (by decide)).1
      simp only [hf, u8_u8, true_and]
      by_cases hid : u8 (s.wire.nth 0).lo = 0x50
      · simp [hr, hid]
      · simp [hr, hid]
    · rw [TSL2561.readByte_fail s _ _ hr]
      simp [hr]
  have hfalse : ∀ {p : Prop}, (s.begin.1 = true ↔ p) → ¬ p → s.begin.1 = false := by
    intro p hp hn
    cases h : s.begin.1
    · rfl
    · exact absurd (hp.mp h) hn
  refine ⟨key, fun h => hfalse key (fun hp => h hp.1), fun h => hfalse key (fun hp => ?_),
    fun h => hfalse key (fun hp => ?_)⟩
  · rw [hp.2] at h
    exact h (by decide)
  · rw [hp.2] at h
    exact h (by decide)

/-- C21 (amended) at ID reads that succeed with the bytes 0x50 and 0x51: `begin` returns
true for the first and false for the second. -/
theorem begin_iff_witness : (idDemo 0x50).begin.1 = true ∧ (idDemo 0x51).begin.1 = false :=
  ⟨(begin_iff (idDemo 0x50)).1.mpr ⟨by decide, by decide⟩,
    (begin_iff (idDemo 0x51)).2.2.2 (by decide)⟩

/-! ## The fixed-point constants -/

/-- Rounding to the nearest integer from the two bounds on the value. -/
theorem round_rat_eq (q : ℚ) (n : ℤ) (h1 : (n : ℚ) ≤ q + 1 / 2) (h2 : q + 1 / 2 < (n : ℚ) + 1) :
    round q = n := by
  rw [round_eq, Int.floor_eq_iff]
  exact ⟨h1, h2⟩

/-- C22: every fixed-point constant of `getLuxInt` is its documented value times its scale,
rounded to the nearest integer in exact rational arithmetic: the breakpoints K1T..K7T at
scale 2^9, the coefficients B1T..B7T and M1T..M7T at scale 2^14, the channel scales at scale
2^10; and K8T = K7T, B8T = M8T = 0. -/
theorem lux_constants_rounded :
    (round ((0.125 : ℚ) * 2 ^ 9) = (TSL2561_LUX_K1T : ℤ) ∧
     round ((0.250 : ℚ) * 2 ^ 9) = (TSL2561_LUX_K2T : ℤ) ∧
     round ((0.375 : ℚ) * 2 ^ 9) = (TSL2561_LUX_K3T : ℤ) ∧
     round ((0.50 : ℚ) * 2 ^ 9) = (TSL2561_LUX_K4T : ℤ) ∧
     round ((0.61 : ℚ) * 2 ^ 9) = (TSL2561_LUX_K5T : ℤ) ∧
     round ((0.80 : ℚ) * 2 ^ 9) = (TSL2561_LUX_K6T : ℤ) ∧
     round ((1.3 : ℚ) * 2 ^ 9) = (TSL2561_LUX_K7T : ℤ)) ∧
    (round ((0.0304 : ℚ) * 2 ^ 14) = (TSL2561_LUX_B1T : ℤ) ∧
     round ((0.0325 : ℚ) * 2 ^ 14) = (TSL2561_LUX_B2T : ℤ) ∧
     round ((0.0351 : ℚ) * 2 ^ 14) = (TSL2561_LUX_B3T : ℤ) ∧
     round ((0.0381 : ℚ) * 2 ^ 14) = (TSL2561_LUX_B4T : ℤ) ∧
     round ((0.0224 : ℚ) * 2 ^ 14) = (TSL2561_LUX_B5T : ℤ) ∧
     round ((0.0128 : ℚ) * 2 ^ 14) = (TSL2561_LUX_B6T : ℤ) ∧
     round ((0.00146 : ℚ) * 2 ^ 14) = (TSL2561_LUX_B7T : ℤ)) ∧
    (round ((0.0272 : ℚ) * 2 ^ 14) = (TSL2561_LUX_M1T : ℤ) ∧
     round ((0.0440 : ℚ) * 2 ^ 14) = (TSL2561_LUX_M2T : ℤ) ∧
     round ((0.0544 : ℚ) * 2 ^ 14) = (TSL2561_LUX_M3T : ℤ) ∧
     round ((0.0624 : ℚ) * 2 ^ 14) = (TSL2561_LUX_M4T : ℤ) ∧
     round ((0.0310 : ℚ) * 2 ^ 14) = (TSL2561_LUX_M5T : ℤ) ∧
     round ((0.0153 : ℚ) * 2 ^ 14) = (TSL2561_LUX_M6T : ℤ) ∧
     round ((0.00112 : ℚ) * 2 ^ 14) = (TSL2561_LUX_M7T : ℤ)) ∧
    (round ((322 / 11 : ℚ) * 2 ^ 10) = (TSL2561_LUX_CHSCALE_TINT0 : ℤ) ∧
     round ((322 / 81 : ℚ) * 2 ^ 10) = (TSL2561_LUX_CHSCALE_TINT1 : ℤ)) ∧
    (TSL2561_LUX_K8T = TSL2561_LUX_K7T ∧ TSL2561_LUX_B8T = 0 ∧ TSL2561_LUX_M8T = 0) := by
  refine ⟨⟨?_, ?_, ?_, ?_, ?_, ?_, ?_⟩, ⟨?_, ?_, ?_, ?_, ?_, ?_, ?_⟩,
    ⟨?_, ?_, ?_, ?_, ?_, ?_, ?_⟩, ⟨?_, ?_⟩, ⟨rfl, rfl, rfl⟩⟩
  all_goals
    apply round_rat_eq
    · norm_num [TSL2561_LUX_K1T, TSL2561_LUX_K2T, TSL2561_LUX_K3T, TSL2561_LUX_K4T,
        TSL2561_LUX_K5T, TSL2561_LUX_K6T, TSL2561_LUX_K7T, TSL2561_LUX_B1T, TSL2561_LUX_B2T,
        TSL2561_LUX_B3T, TSL2561_LUX_B4T, TSL2561_LUX_B5T, TSL2561_LUX_B6T, TSL2561_LUX_B7T,
        TSL2561_LUX_M1T, TSL2561_LUX_M2T, TSL2561_LUX_M3T, TSL2561_LUX_M4T, TSL2561_LUX_M5T,
        TSL2561_LUX_M6T, TSL2561_LUX_M7T, TSL2561_LUX_CHSCALE_TINT0, TSL2561_LUX_CHSCALE_TINT1]
    · norm_num [TSL2561_LUX_K1T, TSL2561_LUX_K2T, TSL2561_LUX_K3T, TSL2561_LUX_K4T,
        TSL2561_LUX_K5T, TSL2561_LUX_K6T, TSL2561_LUX_K7T, TSL2561_LUX_B1T, TSL2561_LUX_B2T,
        TSL2561_LUX_B3T, TSL2561_LUX_B4T, TSL2561_LUX_B5T, TSL2561_LUX_B6T, TSL2561_LUX_B7T,
        TSL2561_LUX_M1T, TSL2561_LUX_M2T, TSL2561_LUX_M3T, TSL2561_LUX_M4T, TSL2561_LUX_M5T,
        TSL2561_LUX_M6T, TSL2561_LUX_M7T, TSL2561_LUX_CHSCALE_TINT0, TSL2561_LUX_CHSCALE_TINT1]

/-! ## The integer conversion against its specification -/

theorem TSL2561.specChScale_eq (s : TSL2561) :
    specChScale s._gain s._it = (s.luxChScale : Int) := by
  have e10 : u32 (1 <<< TSL2561_LUX_CHSCALE) = 1024 := by decide
  have e0 : u32 (TSL2561_LUX_CHSCALE_TINT0 <<< 4) = 479600 := by decide
  have e1 : u32 (TSL2561_LUX_CHSCALE_TINT1 <<< 4) = 65136 := by decide
  have e2 : u32 16384 = 16384 := by decide
  have t0 : TSL2561_LUX_CHSCALE_TINT0 = 29975 := by decide
  have t1 : TSL2561_LUX_CHSCALE_TINT1 = 4071 := by decide
  obtain ⟨a, e, g, it, w⟩ := s
  rcases it with _ | _ | n
  · cases g
    · simp [specChScale, TSL2561.luxChScale, e0]
    · simp [specChScale, TSL2561.luxChScale, t0]
  · cases g
    · simp [specChScale, TSL2561.luxChScale, e1]
    · simp [specChScale, TSL2561.luxChScale, t1]
  · cases g
    · simp [specChScale, TSL2561.luxChScale, e10, e2]
    · simp [specChScale, TSL2561.luxChScale, e10]

theorem TSL2561.specScaled_eq (s : TSL2561) (CH : Nat) (h : CH ≤ specClip s._it) :
    specScaled s._gain s._it CH = (s.luxChannel CH : Int) := by
  unfold specScaled
  rw [TSL2561.specChScale_eq, (TSL2561.luxChannel_bound s CH h).2.1]
  push_cast
  norm_num

theorem specRatio_eq (c0 c1 : Nat) (h1 : c1 ≤ 2353546) :
    specRatio (c0 : Int) (c1 : Int) = (luxRatio c0 c1 : Int) := by
  rw [(luxRatio_eq c0 c1 h1).2.2]
  unfold specRatio
  by_cases h0 : c0 = 0
  · simp [h0]
  · have h0' : (c0 : Int) ≠ 0 := by exact_mod_cast h0
    rw [if_neg h0', if_pos h0]
    push_cast
    norm_num

theorem specSegment_eq (r : Nat) :
    specSegment (r : Int) = (((luxSegment r).1 : Int), ((luxSegment r).2 : Int)) := by
  unfold specSegment
  rcases luxSegment_cases r with
    ⟨_, e⟩ | ⟨_, _, e⟩ | ⟨_, _, e⟩ | ⟨_, _, e⟩ | ⟨_, _, e⟩ | ⟨_, _, e⟩ | ⟨_, _, e⟩ | ⟨_, e⟩ <;>
    rw [e] <;> split_ifs <;> first | rfl | omega

/-- For every raw pair within the clipping threshold, except those with CH0 = 0 and
CH1 > 0, `getLuxInt` returns true with the lux of the specification,
`(max(0, s0*b - s1*m) + 2^13) >> 14` over unbounded integers. -/
theorem TSL2561.getLuxInt_eq_spec (s : TSL2561) (CH0 CH1 : Nat)
    (h0 : CH0 ≤ specClip s._it) (h1 : CH1 ≤ specClip s._it) (h : 1 ≤ CH0 ∨ CH1 = 0) :
    (s.getLuxInt CH0 CH1).1 = true ∧
    ((s.getLuxInt CH0 CH1).2 : Int) = specLuxInt s._gain s._it CH0 CH1 := by
  obtain ⟨⟨_, _, _, hb32, _⟩, ⟨_, _, _, ub, um⟩⟩ := getLuxInt_no_overflow s CH0 CH1 h0 h1
  obtain ⟨_, _, b0, _, _⟩ := TSL2561.luxChannel_bound s CH0 h0
  obtain ⟨_, _, b1, _, _⟩ := TSL2561.luxChannel_bound s CH1 h1
  have hd := getLuxInt_difference s CH0 CH1 h0 h1
  have hle : s.luxChannel CH1 * s.luxM CH0 CH1 ≤ s.luxChannel CH0 * s.luxB CH0 CH1 := by
    by_contra hn
    have := hd.2.mp (by omega)
    omega
  have hA : s.luxChannel CH0 * s.luxB CH0 CH1 ≤ 2353546 * 624 :=
    Nat.mul_le_mul b0 (luxSegment_le _).1
  have hns : ¬ (CH0 > specClip s._it ∨ CH1 > specClip s._it) := by omega
  have e13 : u32 (1 <<< (TSL2561_LUX_LUXSCALE - 1)) = 8192 := by decide
  have hcode : s.getLuxInt CH0 CH1 =
      (true, (s.luxChannel CH0 * s.luxB CH0 CH1 - s.luxChannel CH1 * s.luxM CH0 CH1 + 8192)
        / 16384) := by
    rw [TSL2561.getLuxInt_steps, if_neg hns, ub, um, sub32_of_le _ _ hb32 hle, e13]
    have hsum : u32 (s.luxChannel CH0 * s.luxB CH0 CH1 - s.luxChannel CH1 * s.luxM CH0 CH1
        + 8192) = s.luxChannel CH0 * s.luxB CH0 CH1 - s.luxChannel CH1 * s.luxM CH0 CH1
        + 8192 := Nat.mod_eq_of_lt (by omega)
    rw [hsum]
    unfold TSL2561_LUX_LUXSCALE
    rw [Nat.shiftRight_eq_div_pow]
    have hq : (s.luxChannel CH0 * s.luxB CH0 CH1 - s.luxChannel CH1 * s.luxM CH0 CH1 + 8192)
        / 2 ^ 14 < 2 ^ 32 := by omega
    rw [show u32 ((s.luxChannel CH0 * s.luxB CH0 CH1 - s.luxChannel CH1 * s.luxM CH0 CH1
        + 8192) / 2 ^ 14) = (s.luxChannel CH0 * s.luxB CH0 CH1
        - s.luxChannel CH1 * s.luxM CH0 CH1 + 8192) / 2 ^ 14 from Nat.mod_eq_of_lt hq]
    norm_num
  rw [hcode]
  refine ⟨rfl, ?_⟩
  unfold specLuxInt
  simp only [TSL2561.specScaled_eq s CH0 h0, TSL2561.specScaled_eq s CH1 h1,
    specRatio_eq _ _ b1, specSegment_eq]
  have hmax : max (0 : Int) ((s.luxChannel CH0 : Int) * (s.luxB CH0 CH1 : Int)
      - (s.luxChannel CH1 : Int) * (s.luxM CH0 CH1 : Int)) =
      ((s.luxChannel CH0 * s.luxB CH0 CH1 - s.luxChannel CH1 * s.luxM CH0 CH1 : Nat) : Int) := by
    rw [Nat.cast_sub hle]
    push_cast
    apply max_eq_right
    have : ((s.luxChannel CH1 * s.luxM CH0 CH1 : Nat) : Int) ≤
        ((s.luxChannel CH0 * s.luxB CH0 CH1 : Nat) : Int) := by exact_mod_cast hle
    push_cast at this
    linarith
  show _ = (max (0 : Int) ((s.luxChannel CH0 : Int) * (s.luxB CH0 CH1 : Int)
      - (s.luxChannel CH1 : Int) * (s.luxM CH0 CH1 : Int)) + 2 ^ 13) / 2 ^ 14
  rw [hmax]
  push_cast
  norm_num
